import Mathlib

/-!
# Open Ephys plugin-GUI: event objects and their wire format

A shallow embedding of `Source/Processors/Events/Events.cpp` together with the
descriptor declarations of `Source/Processors/Channel/InfoObjects.h`.

Conventions of the embedding

* a byte is a `Nat` (values below 256), a memory region is a `List Nat`;
* `uint16`, `uint64`, `size_t` values are `Nat`; a store of such a value writes
  its little-endian bytes, which truncates it to the width of the store;
* a `float` is its 32-bit pattern (a `Nat` below `2 ^ 32`);
* a pointer that is only dereferenced is the region it points to; the decoders
  also compare the pointer value itself with small constants, so a message
  carries the address of its raw data next to the bytes;
* a possibly null pointer is an `Option`, a factory that returns `nullptr`
  returns `none`;
* a JUCE `String` is a Lean `String`: `length()` counts characters (code points),
  `toUTF8()` is the UTF-8 encoding;
* `jassertfalse` has no effect on the result and is left out.
-/

namespace OpenEphys

/-! ## Memory primitives -/

/-- Little-endian store image: the `n` low bytes of `x`, least significant first. -/
def leBytes : Nat → Nat → List Nat
  | 0, _ => []
  | n + 1, x => (x % 256) :: leBytes n (x / 256)

/-- Little-endian load: the value whose bytes are `bs`, least significant first. -/
def leValue : List Nat → Nat
  | [] => 0
  | b :: bs => b + 256 * leValue bs

/-- Store of the bytes `bs` at `buffer + off`. A store past the end of the
region (undefined behaviour in C++) leaves the region as it is. -/
def writeAt (buffer : List Nat) (off : Nat) : List Nat → List Nat
  | [] => buffer
  | b :: bs => writeAt (buffer.set off b) (off + 1) bs

/-- The call `memcpy(dst + off, src, n)`: the first `n` bytes of `src` are stored at
`dst + off`. Reading more bytes than `src` holds is undefined behaviour in C++; the
model copies those that exist. -/
def memcpy (dst : List Nat) (off : Nat) (src : List Nat) (n : Nat) : List Nat :=
  writeAt dst off (src.take n)

/-- The call `zeromem(dst + off, n)`. -/
def zeromem (dst : List Nat) (off : Nat) (n : Nat) : List Nat :=
  writeAt dst off (List.replicate n 0)

/-- The `n` bytes read at `buffer + off`. -/
def readAt (buffer : List Nat) (off n : Nat) : List Nat :=
  (buffer.drop off).take n

/-- Conversion of a (32-bit, signed) `int` to `size_t` (64-bit, unsigned), as the
usual arithmetic conversions do it when an `int` is compared with a `size_t`. -/
def intToSizeT (i : Int) : Nat :=
  (i % (2 ^ 64 : Int)).toNat

/-- Raw bytes of an array of 32-bit values (`float` patterns), element after element. -/
def floatBytes (xs : List Nat) : List Nat :=
  xs.flatMap (leBytes 4)

/-! ## Constants of `Events.h` -/

/-- Modelled from the spec: `EVENT_BASE_SIZE` is declared in `Events.h`, which is not
among the sources; the layout table fixes it to 24. -/
def EVENT_BASE_SIZE : Nat := 24

/-- Base tag of an event (`EventType` of `Events.h`; the layout tables give the
values `PROCESSOR_EVENT = 1`, `SPIKE_EVENT = 2`). -/
inductive EventType where
  | PROCESSOR_EVENT
  | SPIKE_EVENT
  deriving DecidableEq, Repr

/-- Numeric value of a base tag. -/
def EventType.toNat : EventType → Nat
  | .PROCESSOR_EVENT => 1
  | .SPIKE_EVENT => 2

/-! ## Metadata (declared in `MetaData.h`) -/

/-- Element types of a metadata field. -/
inductive MetaDataTypes where
  | CHAR | INT8 | UINT8 | INT16 | UINT16 | INT32 | UINT32 | INT64 | UINT64 | FLOAT | DOUBLE
  deriving DecidableEq, Repr

/-- Modelled from the spec: size in bytes of one element of a metadata type
(`MetaData.h` is not among the sources). -/
def MetaDataTypes.byteSize : MetaDataTypes → Nat
  | .CHAR | .INT8 | .UINT8 => 1
  | .INT16 | .UINT16 => 2
  | .INT32 | .UINT32 | .FLOAT => 4
  | .INT64 | .UINT64 | .DOUBLE => 8

/-- A metadata field descriptor: element type and fixed length. -/
structure MetaDataDescriptor where
  m_type : MetaDataTypes
  m_length : Nat
  deriving DecidableEq, Repr

/-- A metadata value: element type, length and raw bytes. -/
structure MetaDataValue where
  m_type : MetaDataTypes
  m_length : Nat
  m_data : List Nat
  deriving DecidableEq, Repr

/-- Modelled from the spec: `size()` in bytes is `sizeof(element) × length`. -/
def MetaDataDescriptor.getDataSize (d : MetaDataDescriptor) : Nat :=
  d.m_type.byteSize * d.m_length

/-- Modelled from the spec: `size()` in bytes is `sizeof(element) × length`. -/
def MetaDataValue.getDataSize (v : MetaDataValue) : Nat :=
  v.m_type.byteSize * v.m_length

/-- Modelled from the spec: a value is of the type of a descriptor when their
(type, length) match (`MetaDataValue::isOfType` of `MetaData.h`). -/
def MetaDataValue.isOfType (v : MetaDataValue) (d : MetaDataDescriptor) : Bool :=
  decide (v.m_type = d.m_type) && decide (v.m_length = d.m_length)

/-- Modelled from the spec: total size of the event-metadata block of a descriptor,
the sum of the sizes of its slots (`getTotalEventMetaDataSize` of `MetaData.h`). -/
def totalEventMetaDataSize (ds : List MetaDataDescriptor) : Nat :=
  (ds.map MetaDataDescriptor.getDataSize).sum

/-- Modelled from the spec: `serializeMetaData(dst + off)` stores the raw bytes of the
values in slot order, each slot taking exactly `size()` bytes. -/
def serializeMetaData (values : List MetaDataValue) (dst : List Nat) (off : Nat) : List Nat :=
  writeAt dst off (values.flatMap fun v => v.m_data.take v.getDataSize)

/-- Modelled from the spec: `deserializeMetaData(info, src, size)` reads one value per
declared slot, in slot order, and fails when the slots do not fit in `size` bytes. -/
def deserializeMetaData : List MetaDataDescriptor → List Nat → Nat →
    Option (List MetaDataValue)
  | [], _, _ => some []
  | d :: ds, src, size =>
    if size < d.getDataSize then none
    else
      match deserializeMetaData ds (src.drop d.getDataSize) (size - d.getDataSize) with
      | none => none
      | some vs => some (⟨d.m_type, d.m_length, src.take d.getDataSize⟩ :: vs)

/-! ## Channel descriptors (`InfoObjects.h`) -/

/-- Value of a `size_t` expression: arithmetic on `size_t` wraps at `2 ^ 64`. -/
def sizeT (x : Nat) : Nat := x % 2 ^ 64

/-- The enumeration `EventChannel::EventChannelTypes`. -/
inductive EventChannelTypes where
  | TTL | TEXT
  | INT8_ARRAY | UINT8_ARRAY | INT16_ARRAY | UINT16_ARRAY | INT32_ARRAY | UINT32_ARRAY
  | INT64_ARRAY | UINT64_ARRAY | FLOAT_ARRAY | DOUBLE_ARRAY
  | INVALID
  deriving DecidableEq, Repr

/-- Enumerator values: `TTL = 3`, `TEXT = 5`, `INT8_ARRAY = 10` and the following ones
counting up, `INVALID` after `DOUBLE_ARRAY`. -/
def EventChannelTypes.toNat : EventChannelTypes → Nat
  | .TTL => 3
  | .TEXT => 5
  | .INT8_ARRAY => 10
  | .UINT8_ARRAY => 11
  | .INT16_ARRAY => 12
  | .UINT16_ARRAY => 13
  | .INT32_ARRAY => 14
  | .UINT32_ARRAY => 15
  | .INT64_ARRAY => 16
  | .UINT64_ARRAY => 17
  | .FLOAT_ARRAY => 18
  | .DOUBLE_ARRAY => 19
  | .INVALID => 20

/-- The alias `EventChannel::BINARY_BASE_VALUE = 10`. -/
def BINARY_BASE_VALUE : Nat := 10

/-- An event channel descriptor: the private members of `EventChannel` and of the
bases the codec reads (`SourceProcessorInfo`, `InfoObjectCommon`, and the list of
event-metadata field descriptors of `MetaDataEventObject`). -/
structure EventChannel where
  m_type : EventChannelTypes
  m_sourceNodeID : Nat
  m_sourceSubNodeIndex : Nat
  m_sourceIndex : Nat
  m_numChannels : Nat := 1
  m_dataSize : Nat := 1
  m_length : Nat := 1
  m_eventMetaData : List MetaDataDescriptor := []
  deriving DecidableEq, Repr

namespace EventChannel

/-! The getters are declared in `InfoObjects.h` and `MetaData.h`; their bodies are in
`InfoObjects.cpp` and `MetaData.cpp`, which are not among the sources. Each returns the
member it is named after. -/

/-- Modelled from the spec: `getChannelType()` returns the variant `m_type`. -/
def getChannelType (c : EventChannel) : EventChannelTypes := c.m_type
/-- Modelled from the spec: `getSourceNodeID()` returns the source node id. -/
def getSourceNodeID (c : EventChannel) : Nat := c.m_sourceNodeID
/-- Modelled from the spec: `getSubProcessorIdx()` returns the sub-processor index. -/
def getSubProcessorIdx (c : EventChannel) : Nat := c.m_sourceSubNodeIndex
/-- Modelled from the spec: `getSourceIndex()` returns the source-local index. -/
def getSourceIndex (c : EventChannel) : Nat := c.m_sourceIndex
/-- Modelled from the spec: `getNumChannels()` returns the number of virtual channels. -/
def getNumChannels (c : EventChannel) : Nat := c.m_numChannels
/-- Modelled from the spec: `getLength()` returns `m_length`. -/
def getLength (c : EventChannel) : Nat := c.m_length
/-- Modelled from the spec: `getDataSize()` returns the payload size in bytes, `m_dataSize`. -/
def getDataSize (c : EventChannel) : Nat := c.m_dataSize
/-- Modelled from the spec: `getEventMetaDataCount()` is the number of event-metadata
slots. -/
def getEventMetaDataCount (c : EventChannel) : Nat := c.m_eventMetaData.length
/-- Modelled from the spec: `getTotalEventMetaDataSize()` is the size of the metadata
block. -/
def getTotalEventMetaDataSize (c : EventChannel) : Nat :=
  totalEventMetaDataSize c.m_eventMetaData

end EventChannel

/-- The enumeration `SpikeChannel::ElectrodeTypes`. -/
inductive ElectrodeTypes where
  | SINGLE | STEREOTRODE | TETRODE
  deriving DecidableEq, Repr

/-- Enumerator values: `SINGLE = 0`, `STEREOTRODE = 1`, `TETRODE = 2`. -/
def ElectrodeTypes.toNat : ElectrodeTypes → Nat
  | .SINGLE => 0
  | .STEREOTRODE => 1
  | .TETRODE => 2

/-- A spike channel descriptor: the private members of `SpikeChannel` and of the
bases the codec reads. -/
structure SpikeChannel where
  m_type : ElectrodeTypes
  m_sourceNodeID : Nat
  m_sourceSubNodeIndex : Nat
  m_sourceIndex : Nat
  m_numPreSamples : Nat := 8
  m_numPostSamples : Nat := 32
  m_eventMetaData : List MetaDataDescriptor := []
  deriving DecidableEq, Repr

namespace SpikeChannel

/-- Modelled from the spec: `getChannelType()` returns the variant `m_type`. -/
def getChannelType (c : SpikeChannel) : ElectrodeTypes := c.m_type
/-- Modelled from the spec: `getSourceNodeID()` returns the source node id. -/
def getSourceNodeID (c : SpikeChannel) : Nat := c.m_sourceNodeID
/-- Modelled from the spec: `getSubProcessorIdx()` returns the sub-processor index. -/
def getSubProcessorIdx (c : SpikeChannel) : Nat := c.m_sourceSubNodeIndex
/-- Modelled from the spec: `getSourceIndex()` returns the source-local index. -/
def getSourceIndex (c : SpikeChannel) : Nat := c.m_sourceIndex
/-- Modelled from the spec: `getEventMetaDataCount()` is the number of event-metadata
slots. -/
def getEventMetaDataCount (c : SpikeChannel) : Nat := c.m_eventMetaData.length
/-- Modelled from the spec: `getTotalEventMetaDataSize()` is the size of the metadata
block. -/
def getTotalEventMetaDataSize (c : SpikeChannel) : Nat :=
  totalEventMetaDataSize c.m_eventMetaData

/-- Modelled from the spec: `SpikeChannel::getNumChannels` is defined in
`InfoObjects.cpp`, which is not among the sources; SINGLE has 1 channel,
STEREOTRODE 2, TETRODE 4. -/
def getNumChannels (c : SpikeChannel) : Nat :=
  match c.m_type with
  | .SINGLE => 1
  | .STEREOTRODE => 2
  | .TETRODE => 4

/-- Modelled from the spec: `totalSamples = numPreSamples + numPostSamples`
(`InfoObjects.cpp` is not among the sources). -/
def getTotalSamples (c : SpikeChannel) : Nat := c.m_numPreSamples + c.m_numPostSamples

/-- Modelled from the spec: `dataSize = numChannels × totalSamples × sizeof(f32)`
(`InfoObjects.cpp` is not among the sources). -/
def getDataSize (c : SpikeChannel) : Nat := c.getNumChannels * c.getTotalSamples * 4

end SpikeChannel

/-! ## `EventBase` and `Event` -/

/-- A message: `getRawData()` is a pointer, of which the decoders use both the
address (`rawData`) and the bytes stored there (`bytes`); `getRawDataSize()` is the
number of those bytes. -/
structure MidiMessage where
  rawData : Nat
  bytes : List Nat
  deriving DecidableEq, Repr

/-- The function `MidiMessage::getRawDataSize()`. -/
def MidiMessage.getRawDataSize (msg : MidiMessage) : Nat := msg.bytes.length

/-- The loop of `EventBase::compareMetaData`: slots `i, i+1, ...` are compared until
`fuel` of them have been. An index outside an array does not occur in the source
(both arrays have `metaDataSize` elements there); the model answers `false`. -/
def compareMetaDataLoop (descs : List MetaDataDescriptor) (metaData : List MetaDataValue) :
    Nat → Nat → Bool
  | _, 0 => true
  | i, fuel + 1 =>
    match metaData[i]?, descs[i]? with
    | some v, some d =>
      if !v.isOfType d then false else compareMetaDataLoop descs metaData (i + 1) fuel
    | _, _ => false

/-- The function `EventBase::compareMetaData(channelInfo, metaData)`, with the event-metadata
descriptors of the channel for `channelInfo`. -/
def EventBase.compareMetaData (descs : List MetaDataDescriptor)
    (metaData : List MetaDataValue) : Bool :=
  let metaDataSize := metaData.length
  if metaDataSize ≠ descs.length then false
  else compareMetaDataLoop descs metaData 0 metaDataSize

/-- Members shared by the processor events: `m_baseType`, `m_timestamp` (of `EventBase`),
`m_metaDataValues` (of `MetaDataEvent`), `m_channel`, `m_channelInfo`, `m_eventType`
(of `Event`). -/
structure Event where
  m_baseType : EventType
  m_timestamp : Nat
  m_channel : Nat
  m_channelInfo : EventChannel
  m_eventType : EventChannelTypes
  m_metaDataValues : List MetaDataValue
  deriving DecidableEq, Repr

namespace Event

/-- The constructor `Event::Event(channelInfo, timestamp, channel)`. -/
def ctor (channelInfo : EventChannel) (timestamp channel : Nat) : Event :=
  { m_baseType := .PROCESSOR_EVENT
    m_timestamp := timestamp
    m_channel := channel
    m_channelInfo := channelInfo
    m_eventType := channelInfo.getChannelType
    m_metaDataValues := [] }

/-- The function `Event::getChannel()`. -/
def getChannel (e : Event) : Nat := e.m_channel
/-- The function `Event::getEventType()`. -/
def getEventType (e : Event) : EventChannelTypes := e.m_eventType
/-- The function `Event::getChannelInfo()`. -/
def getChannelInfo (e : Event) : EventChannel := e.m_channelInfo

/-- The function `Event::serializeHeader(type, buffer, dstSize)`: the returned flag and the
destination region after the call. -/
def serializeHeader (e : Event) (type : EventChannelTypes) (buffer : List Nat)
    (dstSize : Nat) : Bool × List Nat :=
  let dataSize := e.m_channelInfo.getDataSize
  let eventSize := sizeT (dataSize + EVENT_BASE_SIZE)
  let totalSize := sizeT (eventSize + e.m_channelInfo.getTotalEventMetaDataSize)
  if totalSize < dstSize then (false, buffer)
  else
    let buffer := writeAt buffer 0 (leBytes 1 EventType.PROCESSOR_EVENT.toNat)
    let buffer := writeAt buffer 1 (leBytes 1 type.toNat)
    let buffer := writeAt buffer 2 (leBytes 2 e.m_channelInfo.getSourceNodeID)
    let buffer := writeAt buffer 4 (leBytes 2 e.m_channelInfo.getSubProcessorIdx)
    let buffer := writeAt buffer 6 (leBytes 2 e.m_channelInfo.getSourceIndex)
    let buffer := writeAt buffer 8 (leBytes 8 e.m_timestamp)
    let buffer := writeAt buffer 16 (leBytes 8 e.m_channel)
    (true, buffer)

/-- The metadata-less `Event::createChecks(channelInfo, eventType, channel)`. The parameter
`eventType` is not read by the body: the descriptor's type is compared with
`EventChannel::TTL`. The test `channel < 0` of the source is false for every `uint16`. -/
def createChecks (channelInfo : Option EventChannel) (_eventType : EventChannelTypes)
    (channel : Nat) : Bool :=
  match channelInfo with
  | none => false
  | some channelInfo =>
    if channelInfo.getChannelType ≠ EventChannelTypes.TTL then false
    else if channel ≥ channelInfo.getNumChannels then false
    else if channelInfo.getEventMetaDataCount ≠ 0 then false
    else true

/-- The metadata-carrying `Event::createChecks(channelInfo, eventType, channel, metaData)`.
The parameter `eventType` is not read by the body. On a metadata mismatch the body
returns `nullptr`, which as a `bool` is `false`. -/
def createChecksMeta (channelInfo : Option EventChannel) (_eventType : EventChannelTypes)
    (channel : Nat) (metaData : List MetaDataValue) : Bool :=
  match channelInfo with
  | none => false
  | some channelInfo =>
    if channelInfo.getChannelType ≠ EventChannelTypes.TTL then false
    else if channel ≥ channelInfo.getNumChannels then false
    else if !EventBase.compareMetaData channelInfo.m_eventMetaData metaData then false
    else true

end Event

/-! ## `TTLEvent` -/

/-- A TTL event: the `Event` members and the payload block `m_data`. -/
structure TTLEvent extends Event where
  m_data : List Nat
  deriving DecidableEq, Repr

/-- Promotion of a byte read as `char` (signed, 8 bits) to `int`: the 32-bit pattern
of the sign-extended value. -/
def charToInt (b : Nat) : Nat :=
  if b % 256 < 128 then b % 256 else b % 256 + (2 ^ 32 - 256)

namespace TTLEvent

/-- The constructor `TTLEvent::TTLEvent(channelInfo, timestamp, channel, eventData)`: a block of
`getDataSize()` bytes is allocated and filled from `eventData`. Reading more bytes than
the source region holds is undefined behaviour in C++; the model copies those that
exist. -/
def ctor (channelInfo : EventChannel) (timestamp channel : Nat) (eventData : List Nat) :
    TTLEvent :=
  let size := channelInfo.getDataSize
  { toEvent := Event.ctor channelInfo timestamp channel
    m_data := eventData.take size }

/-- The function `TTLEvent::getState()`. -/
def getState (e : TTLEvent) : Bool :=
  let byteIndex := e.m_channel / 8
  let bitIndex := e.m_channel % 8
  let data := charToInt (e.m_data.getD byteIndex 0)
  decide (Nat.land (1 <<< bitIndex) data ≠ 0)

/-- The function `TTLEvent::getTTLWordPointer()`. -/
def getTTLWordPointer (e : TTLEvent) : List Nat := e.m_data

/-- The function `TTLEvent::serialize(dstBuffer, dstSize)`: the destination region after the
call. -/
def serialize (e : TTLEvent) (dstBuffer : List Nat) (dstSize : Nat) : List Nat :=
  match e.toEvent.serializeHeader EventChannelTypes.TTL dstBuffer dstSize with
  | (false, buffer) => buffer
  | (true, buffer) =>
    let dataSize := e.m_channelInfo.getDataSize
    let eventSize := sizeT (dataSize + EVENT_BASE_SIZE)
    let buffer := memcpy buffer EVENT_BASE_SIZE e.m_data dataSize
    serializeMetaData e.m_metaDataValues buffer eventSize

/-- The metadata-less `TTLEvent::createTTLEvent(channelInfo, timestamp, eventData, dataSize,
channel)`. The `int dataSize` is converted to `size_t` for the comparison with
`getDataSize()`. -/
def createTTLEvent (channelInfo : Option EventChannel) (timestamp : Nat)
    (eventData : List Nat) (dataSize : Int) (channel : Nat) : Option TTLEvent :=
  if !Event.createChecks channelInfo EventChannelTypes.TTL channel then none
  else
    match channelInfo with
    | none => none
    | some info =>
      if intToSizeT dataSize < info.getDataSize then none
      else some (ctor info timestamp channel eventData)

/-- The metadata-carrying `TTLEvent::createTTLEvent(channelInfo, timestamp, eventData,
dataSize, metaData, channel)`. -/
def createTTLEventMeta (channelInfo : Option EventChannel) (timestamp : Nat)
    (eventData : List Nat) (dataSize : Int) (metaData : List MetaDataValue)
    (channel : Nat) : Option TTLEvent :=
  if !Event.createChecksMeta channelInfo EventChannelTypes.TTL channel metaData then none
  else
    match channelInfo with
    | none => none
    | some info =>
      if intToSizeT dataSize < info.getDataSize then none
      else
        let event := ctor info timestamp channel eventData
        some { event with m_metaDataValues := event.m_metaDataValues ++ metaData }

/-- The function `TTLEvent::deserializeFromMessage(msg, channelInfo)`. The two tag tests compare
the pointers `buffer + 0` and `buffer + 1` (not the bytes they point to) with the
tag values. The local `ret` is not initialised in the source: `ret` is the
indeterminate value it holds when the descriptor has no event metadata. -/
def deserializeFromMessage (msg : MidiMessage) (channelInfo : EventChannel) (ret : Bool) :
    Option TTLEvent :=
  let totalSize := msg.getRawDataSize
  let dataSize := channelInfo.getDataSize
  let metaDataSize := channelInfo.getTotalEventMetaDataSize
  if totalSize ≠ sizeT (sizeT (dataSize + EVENT_BASE_SIZE) + metaDataSize) then none
  else
    let buffer := msg.rawData
    if buffer + 0 ≠ EventType.PROCESSOR_EVENT.toNat then none
    else if channelInfo.getChannelType ≠ EventChannelTypes.TTL then none
    else if buffer + 1 ≠ EventChannelTypes.TTL.toNat then none
    else
      let timestamp := leValue (readAt msg.bytes 8 8)
      let channel := leValue (readAt msg.bytes 16 2)
      let event := ctor channelInfo timestamp channel (msg.bytes.drop EVENT_BASE_SIZE)
      if metaDataSize > 0 then
        match deserializeMetaData channelInfo.m_eventMetaData
            (msg.bytes.drop (EVENT_BASE_SIZE + dataSize)) metaDataSize with
        | some values => some { event with m_metaDataValues := values }
        | none => none
      else if ret then some event
      else none

end TTLEvent

/-! ## `TextEvent` -/

/-- A text event: the `Event` members and the text. -/
structure TextEvent extends Event where
  m_text : String
  deriving DecidableEq, Repr

namespace TextEvent

/-- The constructor `TextEvent::TextEvent(channelInfo, timestamp, channel, text)`. -/
def ctor (channelInfo : EventChannel) (timestamp channel : Nat) (text : String) :
    TextEvent :=
  { toEvent := Event.ctor channelInfo timestamp channel
    m_text := text }

/-- The function `TextEvent::getText()`. -/
def getText (e : TextEvent) : String := e.m_text

/-- The metadata-less `TextEvent::createTextEvent(channelInfo, timestamp, text, channel)`;
`text.length()` is the number of characters of the string. -/
def createTextEvent (channelInfo : Option EventChannel) (timestamp : Nat) (text : String)
    (channel : Nat) : Option TextEvent :=
  if !Event.createChecks channelInfo EventChannelTypes.TEXT channel then none
  else
    match channelInfo with
    | none => none
    | some info =>
      if text.length > info.getLength then none
      else some (ctor info timestamp channel text)

/-- The metadata-carrying `TextEvent::createTextEvent(channelInfo, timestamp, text, metaData,
channel)`. -/
def createTextEventMeta (channelInfo : Option EventChannel) (timestamp : Nat) (text : String)
    (metaData : List MetaDataValue) (channel : Nat) : Option TextEvent :=
  if !Event.createChecksMeta channelInfo EventChannelTypes.TEXT channel metaData then none
  else
    match channelInfo with
    | none => none
    | some info =>
      if text.length > info.getLength then none
      else
        let event := ctor info timestamp channel text
        some { event with m_metaDataValues := event.m_metaDataValues ++ metaData }

end TextEvent

/-! ## `BinaryEvent` -/

/-- The element types `T` for which `BinaryEvent::createBinaryEvent<T>` is instantiated. -/
inductive ElementType where
  | int8 | uint8 | int16 | uint16 | int32 | uint32 | int64 | uint64 | float | double
  deriving DecidableEq, Repr

/-- A binary-array event: the `Event` members, the payload block and the array tag. -/
structure BinaryEvent extends Event where
  m_data : List Nat
  m_type : EventChannelTypes
  deriving DecidableEq, Repr

namespace BinaryEvent

/-- The constructor `BinaryEvent::BinaryEvent(channelInfo, timestamp, channel, data, type)`. -/
def ctor (channelInfo : EventChannel) (timestamp channel : Nat) (data : List Nat)
    (type : EventChannelTypes) : BinaryEvent :=
  let size := channelInfo.getDataSize
  { toEvent := Event.ctor channelInfo timestamp channel
    m_data := data.take size
    m_type := type }

/-- The function `BinaryEvent::getBinaryDataPointer()`. -/
def getBinaryDataPointer (e : BinaryEvent) : List Nat := e.m_data
/-- The function `BinaryEvent::getBinaryType()`. -/
def getBinaryType (e : BinaryEvent) : EventChannelTypes := e.m_type

/-- The function `BinaryEvent::getType<T>()`. -/
def getType : ElementType → EventChannelTypes
  | .int8 => .INT8_ARRAY
  | .uint8 => .UINT8_ARRAY
  | .int16 => .INT16_ARRAY
  | .uint16 => .UINT16_ARRAY
  | .int32 => .INT32_ARRAY
  | .uint32 => .UINT32_ARRAY
  | .int64 => .INT64_ARRAY
  | .uint64 => .UINT64_ARRAY
  | .float => .FLOAT_ARRAY
  | .double => .DOUBLE_ARRAY

/-- The function `BinaryEvent::serialize(dstBuffer, dstSize)`. -/
def serialize (e : BinaryEvent) (dstBuffer : List Nat) (dstSize : Nat) : List Nat :=
  match e.toEvent.serializeHeader e.m_type dstBuffer dstSize with
  | (false, buffer) => buffer
  | (true, buffer) =>
    let dataSize := e.m_channelInfo.getDataSize
    let eventSize := sizeT (dataSize + EVENT_BASE_SIZE)
    let buffer := memcpy buffer EVENT_BASE_SIZE e.m_data dataSize
    serializeMetaData e.m_metaDataValues buffer eventSize

/-- The metadata-less `BinaryEvent::createBinaryEvent<T>(channelInfo, timestamp, data, dataSize,
channel)`; `data` is the region the `const T*` points to, as bytes. -/
def createBinaryEvent (T : ElementType) (channelInfo : Option EventChannel) (timestamp : Nat)
    (data : List Nat) (dataSize : Int) (channel : Nat) : Option BinaryEvent :=
  let type := getType T
  if type = EventChannelTypes.INVALID then none
  else if !Event.createChecks channelInfo type channel then none
  else
    match channelInfo with
    | none => none
    | some info =>
      if intToSizeT dataSize < info.getDataSize then none
      else some (ctor info timestamp channel data type)

/-- The metadata-carrying `BinaryEvent::createBinaryEvent<T>(channelInfo, timestamp, data,
dataSize, metaData, channel)`. -/
def createBinaryEventMeta (T : ElementType) (channelInfo : Option EventChannel)
    (timestamp : Nat) (data : List Nat) (dataSize : Int) (metaData : List MetaDataValue)
    (channel : Nat) : Option BinaryEvent :=
  let type := getType T
  if type = EventChannelTypes.INVALID then none
  else if !Event.createChecksMeta channelInfo EventChannelTypes.TTL channel metaData then none
  else
    match channelInfo with
    | none => none
    | some info =>
      if intToSizeT dataSize < info.getDataSize then none
      else
        let event := ctor info timestamp channel data type
        some { event with m_metaDataValues := event.m_metaDataValues ++ metaData }

end BinaryEvent

/-! ## `SpikeEvent` and `SpikeBuffer` -/

/-- The class `SpikeEvent::SpikeBuffer`: lane count, samples per lane, the sample block (32-bit
patterns) and the ready flag. -/
structure SpikeBuffer where
  m_nChans : Nat
  m_nSamps : Nat
  m_data : List Nat
  m_ready : Bool
  deriving DecidableEq, Repr

/-- A spike event: `m_baseType`, `m_timestamp`, `m_metaDataValues`, and the members of
`SpikeEvent` (thresholds and samples are 32-bit patterns). -/
structure SpikeEvent where
  m_baseType : EventType
  m_timestamp : Nat
  m_thresholds : List Nat
  m_channelInfo : SpikeChannel
  m_data : List Nat
  m_metaDataValues : List MetaDataValue
  deriving DecidableEq, Repr

/-- The threshold loop of `SpikeEvent::serialize`: threshold `i` is stored at `memIdx`, which
then advances by `sizeof(float)`; the result is the region and the final `memIdx`. -/
def writeThresholds (buffer : List Nat) (memIdx : Nat) : List Nat → List Nat × Nat
  | [] => (buffer, memIdx)
  | t :: ts => writeThresholds (writeAt buffer memIdx (leBytes 4 t)) (memIdx + 4) ts

/-- The `n` 32-bit values stored from `buffer + off` on. -/
def floatsAt (buffer : List Nat) (off n : Nat) : List Nat :=
  (List.range n).map fun i => leValue (readAt buffer (off + 4 * i) 4)

namespace SpikeEvent

/-- The constructor `SpikeEvent::SpikeEvent(channelInfo, timestamp, thresholds, data)`: the block
`data` is swapped with the (empty) block of the new event, so the result is the
event and what is left in `data`. -/
def ctor (channelInfo : SpikeChannel) (timestamp : Nat) (thresholds : List Nat)
    (data : List Nat) : SpikeEvent × List Nat :=
  ({ m_baseType := .SPIKE_EVENT
     m_timestamp := timestamp
     m_thresholds := thresholds
     m_channelInfo := channelInfo
     m_data := data
     m_metaDataValues := [] }, [])

/-- The function `SpikeEvent::getDataPointer()`. -/
def getDataPointer (e : SpikeEvent) : List Nat := e.m_data

/-- The function `SpikeEvent::getThreshold(chan)`. -/
def getThreshold (e : SpikeEvent) (chan : Nat) : Nat := e.m_thresholds.getD chan 0

/-- The function `SpikeEvent::serialize(dstBuffer, dstSize)`, for a given value of the constant
`SPIKE_BASE_SIZE` (declared in `Events.h`, which is not among the sources). -/
def serialize (SPIKE_BASE_SIZE : Nat) (e : SpikeEvent) (dstBuffer : List Nat)
    (dstSize : Nat) : List Nat :=
  let dataSize := e.m_channelInfo.getDataSize
  let eventSize := sizeT (sizeT (dataSize + SPIKE_BASE_SIZE) + sizeT (e.m_thresholds.length * 4))
  let totalSize := sizeT (eventSize + e.m_channelInfo.getTotalEventMetaDataSize)
  if totalSize < dstSize then dstBuffer
  else
    let buffer := dstBuffer
    let buffer := writeAt buffer 0 (leBytes 1 EventType.SPIKE_EVENT.toNat)
    let buffer := writeAt buffer 1 (leBytes 1 e.m_channelInfo.getChannelType.toNat)
    let buffer := writeAt buffer 2 (leBytes 2 e.m_channelInfo.getSourceNodeID)
    let buffer := writeAt buffer 4 (leBytes 2 e.m_channelInfo.getSubProcessorIdx)
    let buffer := writeAt buffer 6 (leBytes 2 e.m_channelInfo.getSourceIndex)
    let buffer := writeAt buffer 8 (leBytes 8 e.m_timestamp)
    let (buffer, memIdx) := writeThresholds buffer SPIKE_BASE_SIZE e.m_thresholds
    let buffer := memcpy buffer memIdx (floatBytes e.m_data) dataSize
    serializeMetaData e.m_metaDataValues buffer eventSize

/-- The function `SpikeEvent::createBasicSpike(channelInfo, timestamp, thresholds, dataSource)`:
the returned event and the buffer after the call. -/
def createBasicSpike (channelInfo : SpikeChannel) (timestamp : Nat) (thresholds : List Nat)
    (dataSource : SpikeBuffer) : Option SpikeEvent × SpikeBuffer :=
  if !dataSource.m_ready then (none, dataSource)
  else
    let nChannels := channelInfo.getNumChannels
    if nChannels ≠ dataSource.m_nChans then (none, dataSource)
    else
      let nSamples := channelInfo.getTotalSamples
      if nSamples ≠ dataSource.m_nSamps then (none, dataSource)
      else if thresholds.length ≠ nChannels then (none, dataSource)
      else
        let dataSource := { dataSource with m_ready := false }
        let (event, data) := ctor channelInfo timestamp thresholds dataSource.m_data
        (some event, { dataSource with m_data := data })

/-- The metadata-less `SpikeEvent::createSpikeEvent(channelInfo, timestamp, thresholds,
dataSource)`. -/
def createSpikeEvent (channelInfo : Option SpikeChannel) (timestamp : Nat)
    (thresholds : List Nat) (dataSource : SpikeBuffer) : Option SpikeEvent × SpikeBuffer :=
  match channelInfo with
  | none => (none, dataSource)
  | some info =>
    if info.getEventMetaDataCount ≠ 0 then (none, dataSource)
    else createBasicSpike info timestamp thresholds dataSource

/-- The metadata-carrying `SpikeEvent::createSpikeEvent(channelInfo, timestamp, thresholds,
dataSource, metaData)`. -/
def createSpikeEventMeta (channelInfo : Option SpikeChannel) (timestamp : Nat)
    (thresholds : List Nat) (dataSource : SpikeBuffer) (metaData : List MetaDataValue) :
    Option SpikeEvent × SpikeBuffer :=
  match channelInfo with
  | none => (none, dataSource)
  | some info =>
    if !EventBase.compareMetaData info.m_eventMetaData metaData then (none, dataSource)
    else
      match createBasicSpike info timestamp thresholds dataSource with
      | (none, dataSource) => (none, dataSource)
      | (some event, dataSource) =>
        (some { event with m_metaDataValues := event.m_metaDataValues ++ metaData }, dataSource)

/-- The function `SpikeEvent::deserializeFromMessage(msg, channelInfo)`, for a given value of
`SPIKE_BASE_SIZE`. The two tag tests compare the pointers `buffer + 0` and
`buffer + 1` (not the bytes they point to) with the tag values. The local `ret` is
not initialised in the source: `ret` is the indeterminate value it holds when the
descriptor has no event metadata. -/
def deserializeFromMessage (SPIKE_BASE_SIZE : Nat) (msg : MidiMessage)
    (channelInfo : SpikeChannel) (ret : Bool) : Option SpikeEvent :=
  let nChans := channelInfo.getNumChannels
  let totalSize := msg.getRawDataSize
  let dataSize := channelInfo.getDataSize
  let thresholdSize := sizeT (nChans * 4)
  let metaDataSize := channelInfo.getTotalEventMetaDataSize
  if totalSize ≠
      sizeT (sizeT (sizeT (thresholdSize + dataSize) + SPIKE_BASE_SIZE) + metaDataSize) then
    none
  else
    let buffer := msg.rawData
    if buffer + 0 ≠ EventType.SPIKE_EVENT.toNat then none
    else if buffer + 1 ≠ channelInfo.getChannelType.toNat then none
    else
      let timestamp := leValue (readAt msg.bytes 8 8)
      let thresholds := floatsAt msg.bytes SPIKE_BASE_SIZE nChans
      let data := floatsAt msg.bytes (SPIKE_BASE_SIZE + thresholdSize) (dataSize / 4)
      let event := (ctor channelInfo timestamp thresholds data).1
      if metaDataSize > 0 then
        match deserializeMetaData channelInfo.m_eventMetaData
            (msg.bytes.drop (SPIKE_BASE_SIZE + dataSize + thresholdSize)) metaDataSize with
        | some values => some { event with m_metaDataValues := values }
        | none => none
      else if ret then some event
      else none

end SpikeEvent

/-! ## Strings, text payloads and the remaining decoders -/

/-- The UTF-8 encoding of a string: the bytes `String::toUTF8()` points to, without the
terminating zero. -/
def utf8Bytes (text : String) : List Nat :=
  (text.data.flatMap String.utf8EncodeChar).map UInt8.toNat

/-- The function `String::getNumBytesAsUTF8()`: the number of bytes of the UTF-8 encoding. -/
def getNumBytesAsUTF8 (text : String) : Nat := (utf8Bytes text).length

/-- The difference `a - b` of two `size_t` values, which wraps at `2 ^ 64`. -/
def sizeTSub (a b : Nat) : Nat := (a % 2 ^ 64 + 2 ^ 64 - b % 2 ^ 64) % 2 ^ 64

namespace TextEvent

/-- The function `TextEvent::serialize(dstBuffer, dstSize)`: the destination region after the
call. The text is copied with its UTF-8 byte count `stringSize`, and
`dataSize - stringSize` bytes are zeroed after it when that `size_t` difference is
positive. -/
def serialize (e : TextEvent) (dstBuffer : List Nat) (dstSize : Nat) : List Nat :=
  match e.toEvent.serializeHeader EventChannelTypes.TEXT dstBuffer dstSize with
  | (false, buffer) => buffer
  | (true, buffer) =>
    let dataSize := e.m_channelInfo.getDataSize
    let eventSize := sizeT (dataSize + EVENT_BASE_SIZE)
    let stringSize := getNumBytesAsUTF8 e.m_text
    let buffer := memcpy buffer EVENT_BASE_SIZE (utf8Bytes e.m_text) stringSize
    let buffer :=
      if sizeTSub dataSize stringSize > 0 then
        zeromem buffer (EVENT_BASE_SIZE + stringSize) (sizeTSub dataSize stringSize)
      else buffer
    serializeMetaData e.m_metaDataValues buffer eventSize

/-- The function `TextEvent::deserializeFromMessage(msg, channelInfo)`. The two tag tests
compare the pointers `buffer + 0` and `buffer + 1` with the tag values. The text is
built by the JUCE constructor `String(CharPointer_UTF8(buffer + EVENT_BASE_SIZE),
dataSize)`, a library function outside the repository: `decodeUTF8 bytes maxChars`
stands for it. The local `ret` is not initialised in the source: `ret` is the
indeterminate value it holds when the descriptor has no event metadata. -/
def deserializeFromMessage (decodeUTF8 : List Nat → Nat → String) (msg : MidiMessage)
    (channelInfo : EventChannel) (ret : Bool) : Option TextEvent :=
  let totalSize := msg.getRawDataSize
  let dataSize := channelInfo.getDataSize
  let metaDataSize := channelInfo.getTotalEventMetaDataSize
  if totalSize ≠ sizeT (sizeT (dataSize + EVENT_BASE_SIZE) + metaDataSize) then none
  else
    let buffer := msg.rawData
    if buffer + 0 ≠ EventType.PROCESSOR_EVENT.toNat then none
    else if channelInfo.getChannelType ≠ EventChannelTypes.TEXT then none
    else if buffer + 1 ≠ EventChannelTypes.TEXT.toNat then none
    else
      let timestamp := leValue (readAt msg.bytes 8 8)
      let channel := leValue (readAt msg.bytes 16 2)
      let text := decodeUTF8 (msg.bytes.drop EVENT_BASE_SIZE) dataSize
      let event := ctor channelInfo timestamp channel text
      if metaDataSize > 0 then
        match deserializeMetaData channelInfo.m_eventMetaData
            (msg.bytes.drop (EVENT_BASE_SIZE + dataSize)) metaDataSize with
        | some values => some { event with m_metaDataValues := values }
        | none => none
      else if ret then some event
      else none

end TextEvent

namespace BinaryEvent

/-- The function `BinaryEvent::deserializeFromMessage(msg, channelInfo)`. The base-tag test
compares the pointer `buffer + 0` with `PROCESSOR_EVENT`; the type test reads the byte
`*(buffer + 1)`. Past the type test the tag read from the message equals the
descriptor's type, which is what the new event stores. The local `ret` is not
initialised in the source: `ret` is the indeterminate value it holds when the
descriptor has no event metadata. -/
def deserializeFromMessage (msg : MidiMessage) (channelInfo : EventChannel) (ret : Bool) :
    Option BinaryEvent :=
  let totalSize := msg.getRawDataSize
  let dataSize := channelInfo.getDataSize
  let metaDataSize := channelInfo.getTotalEventMetaDataSize
  if totalSize ≠ sizeT (sizeT (dataSize + EVENT_BASE_SIZE) + metaDataSize) then none
  else
    let buffer := msg.rawData
    if buffer + 0 ≠ EventType.PROCESSOR_EVENT.toNat then none
    else if channelInfo.getChannelType.toNat < BINARY_BASE_VALUE
        ∨ channelInfo.getChannelType.toNat ≥ EventChannelTypes.INVALID.toNat then none
    else
      let type := msg.bytes.getD 1 0
      if type ≠ channelInfo.getChannelType.toNat then none
      else
        let timestamp := leValue (readAt msg.bytes 8 8)
        let channel := leValue (readAt msg.bytes 16 2)
        let event := ctor channelInfo timestamp channel (msg.bytes.drop EVENT_BASE_SIZE)
          channelInfo.getChannelType
        if metaDataSize > 0 then
          match deserializeMetaData channelInfo.m_eventMetaData
              (msg.bytes.drop (EVENT_BASE_SIZE + dataSize)) metaDataSize with
          | some values => some { event with m_metaDataValues := values }
          | none => none
        else if ret then some event
        else none

end BinaryEvent

/-! ## Dispatch: `Event::deserializeFromMessage`, `EventBase::deserializeFromMessage` -/

/-- What an `EventBase*` returned by a decoder points to. -/
inductive AnyEvent where
  | ttl (e : TTLEvent)
  | text (e : TextEvent)
  | binary (e : BinaryEvent)
  | spike (e : SpikeEvent)
  deriving DecidableEq, Repr

/-- Outcome of a dispatching decoder: a new event, `nullptr`, or a read through a null
descriptor pointer (undefined behaviour in C++). -/
inductive Decoded where
  | event (e : AnyEvent)
  | null
  | nullDereference
  deriving DecidableEq, Repr

/-- The function `Event::deserializeFromMessage(msg, channelInfo)`: the first statement reads
`channelInfo->getChannelType()`, whatever `channelInfo` is. -/
def Event.deserializeFromMessage (decodeUTF8 : List Nat → Nat → String) (msg : MidiMessage)
    (channelInfo : Option EventChannel) (ret : Bool) : Decoded :=
  match channelInfo with
  | none => Decoded.nullDereference
  | some info =>
    let type := info.getChannelType
    if type = EventChannelTypes.TTL then
      match TTLEvent.deserializeFromMessage msg info ret with
      | some e => Decoded.event (AnyEvent.ttl e)
      | none => Decoded.null
    else if type = EventChannelTypes.TEXT then
      match TextEvent.deserializeFromMessage decodeUTF8 msg info ret with
      | some e => Decoded.event (AnyEvent.text e)
      | none => Decoded.null
    else if type.toNat ≥ EventChannelTypes.INT8_ARRAY.toNat
        ∧ type.toNat ≤ EventChannelTypes.DOUBLE_ARRAY.toNat then
      match BinaryEvent.deserializeFromMessage msg info ret with
      | some e => Decoded.event (AnyEvent.binary e)
      | none => Decoded.null
    else Decoded.null

/-- Modelled from the spec: the descriptor lookup API of the pipeline, the only functions
the decoder calls on its processor (`GenericProcessor.h` is not among the sources):
`getEventChannelIndex(sourceIndex, processorID, subProcessorID)` and
`getSpikeChannelIndex(...)` return an `int` index, `getEventChannel(index)` and
`getSpikeChannel(index)` a descriptor pointer, null when there is none. -/
structure GenericProcessor where
  getEventChannelIndex : Nat → Nat → Nat → Int
  getEventChannel : Int → Option EventChannel
  getSpikeChannelIndex : Nat → Nat → Nat → Int
  getSpikeChannel : Int → Option SpikeChannel

namespace EventBase

/-- The function `EventBase::getBaseType(msg)`: the value of byte 0. -/
def getBaseType (msg : MidiMessage) : Nat := msg.bytes.getD 0 0

/-- The locals `processorID`, `subProcessorID` and `channelIDX` of
`EventBase::deserializeFromMessage`, in the order in which they are passed to
`getEventChannelIndex(channelIDX, processorID, subProcessorID)`: each is
`static_cast<uint16>(*(data + k))` with `data` a `const uint8*`, the value of the one
byte at offset `k`. -/
def lookupKey (msg : MidiMessage) : Nat × Nat × Nat :=
  let data := msg.bytes
  let processorID := data.getD 2 0
  let subProcessorID := data.getD 4 0
  let channelIDX := data.getD 6 0
  (channelIDX, processorID, subProcessorID)

/-- The function `EventBase::deserializeFromMessage(msg, processor)`. -/
def deserializeFromMessage (SPIKE_BASE_SIZE : Nat) (decodeUTF8 : List Nat → Nat → String)
    (msg : MidiMessage) (processor : Option GenericProcessor) (ret : Bool) : Decoded :=
  match processor with
  | none => Decoded.null
  | some processor =>
    let type := msg.bytes.getD 0 0
    let (channelIDX, processorID, subProcessorID) := lookupKey msg
    if type = EventType.PROCESSOR_EVENT.toNat then
      let chan := processor.getEventChannel
        (processor.getEventChannelIndex channelIDX processorID subProcessorID)
      Event.deserializeFromMessage decodeUTF8 msg chan ret
    else if type = EventType.SPIKE_EVENT.toNat then
      let chan := processor.getSpikeChannel
        (processor.getSpikeChannelIndex channelIDX processorID subProcessorID)
      match chan with
      | none => Decoded.nullDereference
      | some info =>
        match SpikeEvent.deserializeFromMessage SPIKE_BASE_SIZE msg info ret with
        | some e => Decoded.event (AnyEvent.spike e)
        | none => Decoded.null
    else Decoded.null

/-- The function `EventBase::getSourceID(msg)`: `static_cast<uint16>(*data + 2)`, the value of
byte 0 plus 2. -/
def getSourceID (msg : MidiMessage) : Nat := (msg.bytes.getD 0 0 + 2) % 2 ^ 16

/-- The function `EventBase::getSubProcessorIdx(msg)`: `static_cast<uint16>(*data + 4)`. -/
def getSubProcessorIdx (msg : MidiMessage) : Nat := (msg.bytes.getD 0 0 + 4) % 2 ^ 16

/-- The function `EventBase::getSourceIndex(msg)`: `static_cast<uint16>(*data + 4)`. -/
def getSourceIndex (msg : MidiMessage) : Nat := (msg.bytes.getD 0 0 + 4) % 2 ^ 16

end EventBase

/-- The function `Event::getEventType(msg)`: the value of byte 1. -/
def Event.getEventTypeOf (msg : MidiMessage) : Nat := msg.bytes.getD 1 0

/-! ## `SpikeBuffer` construction and lane access, `SpikeEvent::getDataPointer(channel)` -/

namespace SpikeBuffer

/-- The constructor `SpikeBuffer::SpikeBuffer(channelInfo)`: the lane count and the samples per
lane are taken from the descriptor and a block of `m_nChans * m_nSamps` floats is
allocated. The block is not initialised: `contents i` is the indeterminate pattern of
element `i`. The initial value of `m_ready` is given in `Events.h`, which is not among
the sources; by the specification a new buffer is marked ready. -/
def ctor (channelInfo : SpikeChannel) (contents : Nat → Nat) : SpikeBuffer :=
  let nChans := channelInfo.getNumChannels
  let nSamps := channelInfo.getTotalSamples
  { m_nChans := nChans
    m_nSamps := nSamps
    m_data := (List.range (nChans * nSamps)).map contents
    m_ready := true }

/-- The operator `SpikeBuffer::operator[](index)`: a null pointer (`none`) when the buffer is
not ready or `index` is outside `[0, m_nChans)`, otherwise the pointer
`m_data.getData() + (index + m_nSamps)`, given as its offset in elements from the
start of the block. -/
def subscript (b : SpikeBuffer) (index : Int) : Option Nat :=
  if !b.m_ready then none
  else if index < 0 ∨ index ≥ (b.m_nChans : Int) then none
  else some (index.toNat + b.m_nSamps)

end SpikeBuffer

/-- The function `SpikeEvent::getDataPointer(channel)`: a null pointer (`none`) when `channel`
is outside `[0, numChannels)`, otherwise the pointer
`m_data.getData() + channel * getTotalSamples()`, given as its offset in elements from
the start of the sample array. The product is computed in `unsigned int`, which
wraps at `2 ^ 32`. -/
def SpikeEvent.getDataPointerAt (e : SpikeEvent) (channel : Int) : Option Nat :=
  if channel < 0 ∨ channel ≥ (e.m_channelInfo.getNumChannels : Int) then none
  else some ((channel.toNat * e.m_channelInfo.getTotalSamples) % 2 ^ 32)

/-! ## Concrete inputs (the end-to-end scenarios of the specification) -/

/-- Scenario 1: an `EventChannel` of type TTL with 8 virtual channels (one payload byte)
and no event metadata. -/
def scenarioTTL : EventChannel :=
  { m_type := .TTL, m_sourceNodeID := 100, m_sourceSubNodeIndex := 1, m_sourceIndex := 2,
    m_numChannels := 8, m_dataSize := 1, m_length := 1, m_eventMetaData := [] }

/-- Scenario 2: an `EventChannel` of type TEXT with `length = 16`. -/
def scenarioText : EventChannel :=
  { m_type := .TEXT, m_sourceNodeID := 100, m_sourceSubNodeIndex := 1, m_sourceIndex := 3,
    m_numChannels := 1, m_dataSize := 16, m_length := 16, m_eventMetaData := [] }

/-- Scenario 3: an `EventChannel` of type FLOAT_ARRAY with `length = 4` (16 payload bytes). -/
def scenarioFloatArray : EventChannel :=
  { m_type := .FLOAT_ARRAY, m_sourceNodeID := 100, m_sourceSubNodeIndex := 1,
    m_sourceIndex := 4, m_numChannels := 1, m_dataSize := 16, m_length := 4,
    m_eventMetaData := [] }

/-- The bytes of the `float` array `[1.0, -2.0, 3.5, 0.0]` of scenario 3. -/
def scenarioFloatData : List Nat :=
  floatBytes [0x3F800000, 0xC0000000, 0x40600000, 0x00000000]

/-- Scenario 4: a `SpikeChannel` of type TETRODE with 8 pre-peak and 32 post-peak samples. -/
def scenarioTetrode : SpikeChannel :=
  { m_type := .TETRODE, m_sourceNodeID := 100, m_sourceSubNodeIndex := 1, m_sourceIndex := 0,
    m_numPreSamples := 8, m_numPostSamples := 32, m_eventMetaData := [] }

/-- Scenario 4: a ready buffer of 4 lanes of 40 samples, lane `k` filled with the `float`
`k` (patterns of 0.0, 1.0, 2.0, 3.0). -/
def scenarioSpikeBuffer : SpikeBuffer :=
  { m_nChans := 4, m_nSamps := 40,
    m_data := List.replicate 40 0x00000000 ++ List.replicate 40 0x3F800000 ++
      List.replicate 40 0x40000000 ++ List.replicate 40 0x40400000,
    m_ready := true }

/-- Scenario 4: the thresholds `[10.0, 20.0, 30.0, 40.0]` as `float` patterns. -/
def scenarioThresholds : List Nat := [0x41200000, 0x41A00000, 0x41F00000, 0x42200000]

/-- A `SpikeChannel` of type SINGLE with one pre-peak and one post-peak sample
(8 payload bytes). -/
def smallSingle : SpikeChannel :=
  { m_type := .SINGLE, m_sourceNodeID := 100, m_sourceSubNodeIndex := 1, m_sourceIndex := 0,
    m_numPreSamples := 1, m_numPostSamples := 1, m_eventMetaData := [] }

/-- A spike event on `smallSingle`, as `SpikeEvent::createSpikeEvent` builds it from the
threshold `10.0` and the samples `1.0, 2.0`. -/
def smallSpike : SpikeEvent :=
  { m_baseType := .SPIKE_EVENT, m_timestamp := 7, m_thresholds := [0x41200000],
    m_channelInfo := smallSingle, m_data := [0x3F800000, 0x40000000],
    m_metaDataValues := [] }

/-- The TTL event of scenario 1: timestamp 0x0102030405060708, channel 3, word 0x08. -/
def scenarioTTLEvent : TTLEvent :=
  TTLEvent.ctor scenarioTTL 0x0102030405060708 3 [0x08]

/-- Scenario 5: a TTL descriptor like that of scenario 1 with one event-metadata slot
(INT16, length 1). -/
def scenarioTTLMeta : EventChannel :=
  { scenarioTTL with m_eventMetaData := [⟨MetaDataTypes.INT16, 1⟩] }

/-- Scenario 5: an INT16 metadata value (of length 1, the two bytes of 0x1234). -/
def scenarioInt16Value : MetaDataValue := ⟨MetaDataTypes.INT16, 1, [0x34, 0x12]⟩

/-- Scenario 5: a UINT16 metadata value (of length 1). -/
def scenarioUInt16Value : MetaDataValue := ⟨MetaDataTypes.UINT16, 1, [0x34, 0x12]⟩

/-- A tetrode descriptor like that of scenario 4 with one event-metadata slot. -/
def scenarioTetrodeMeta : SpikeChannel :=
  { scenarioTetrode with m_eventMetaData := [⟨MetaDataTypes.INT16, 1⟩] }

/-- A TTL descriptor like that of scenario 1 whose source node id, 300, does not fit in
one byte. -/
def wideTTL : EventChannel :=
  { scenarioTTL with m_sourceNodeID := 300, m_sourceSubNodeIndex := 513, m_sourceIndex := 1026 }

/-- The 25-byte message of the TTL event of scenario 1, stored at address 4096. -/
def scenarioTTLMessage : MidiMessage :=
  ⟨4096, [1, 3, 100, 0, 1, 0, 2, 0, 8, 7, 6, 5, 4, 3, 2, 1, 3, 0, 0, 0, 0, 0, 0, 0, 8]⟩

/-- The message of a text event "hello" (timestamp 5, channel 0) on the descriptor of
scenario 2, stored at address 4096: 24 header bytes, the text, 11 zero bytes. -/
def scenarioTextMessage : MidiMessage :=
  ⟨4096, [1, 5, 100, 0, 1, 0, 3, 0, 5, 0, 0, 0, 0, 0, 0, 0, 0, 0, 0, 0, 0, 0, 0, 0,
    104, 101, 108, 108, 111, 0, 0, 0, 0, 0, 0, 0, 0, 0, 0, 0]⟩

/-- The message of a binary event with the array of scenario 3 (timestamp 5, channel 0),
stored at address 4096. -/
def scenarioFloatMessage : MidiMessage :=
  ⟨4096, [1, 18, 100, 0, 1, 0, 4, 0, 5, 0, 0, 0, 0, 0, 0, 0, 0, 0, 0, 0, 0, 0, 0, 0,
    0, 0, 128, 63, 0, 0, 0, 192, 0, 0, 96, 64, 0, 0, 0, 0]⟩

/-- The message of `smallSpike` for `SPIKE_BASE_SIZE = 18`, stored at address 4096. -/
def smallSpikeMessage : MidiMessage :=
  ⟨4096, [2, 0, 100, 0, 1, 0, 0, 0, 7, 0, 0, 0, 0, 0, 0, 0, 0, 0, 0, 0, 32, 65,
    0, 0, 128, 63, 0, 0, 0, 64]⟩

/-- A processor that publishes the one event channel `wideTTL`: the index lookup answers 0
for the triple of `wideTTL` and -1 for every other one. -/
def wideProcessor : GenericProcessor :=
  { getEventChannelIndex := fun channelIDX processorID subProcessorID =>
      if channelIDX = 1026 ∧ processorID = 300 ∧ subProcessorID = 513 then 0 else -1
    getEventChannel := fun index => if index = 0 then some wideTTL else none
    getSpikeChannelIndex := fun _ _ _ => -1
    getSpikeChannel := fun _ => none }

/-- A processor that publishes no channel: every index lookup answers -1 and every
descriptor lookup a null pointer. -/
def emptyProcessor : GenericProcessor :=
  { getEventChannelIndex := fun _ _ _ => -1
    getEventChannel := fun _ => none
    getSpikeChannelIndex := fun _ _ _ => -1
    getSpikeChannel := fun _ => none }

/-- A ready buffer built from the single-electrode descriptor `smallSingle` (one lane of
two samples), its block holding zeros. -/
def smallBuffer : SpikeBuffer := SpikeBuffer.ctor smallSingle (fun _ => 0)

/-- A ready buffer built from the tetrode descriptor of scenario 4 (four lanes of 40
samples), its block holding zeros. -/
def tetrodeBuffer : SpikeBuffer := SpikeBuffer.ctor scenarioTetrode (fun _ => 0)

/-- A TTL descriptor with 16 virtual channels and a word of two bytes. -/
def ttl16 : EventChannel :=
  { scenarioTTL with m_numChannels := 16, m_dataSize := 2, m_length := 2 }

/-- A TTL descriptor with 16 virtual channels, a word of two bytes and one event-metadata
slot (INT16, length 1). -/
def ttl16Meta : EventChannel :=
  { ttl16 with m_eventMetaData := [⟨MetaDataTypes.INT16, 1⟩] }

/-- The spike event of scenario 4, as `SpikeEvent::createSpikeEvent` builds it: four lanes of
40 samples, lane `k` filled with the `float` `k`. -/
def scenarioSpike : SpikeEvent :=
  (SpikeEvent.ctor scenarioTetrode 1000 scenarioThresholds scenarioSpikeBuffer.m_data).1

/-- The 16 header bytes of a serialized spike event: base tag 2, electrode type, the
three 16-bit provenance fields and the 64-bit timestamp. -/
def spikeHeader (e : SpikeEvent) : List Nat :=
  [2, e.m_channelInfo.getChannelType.toNat] ++ leBytes 2 e.m_channelInfo.getSourceNodeID
    ++ leBytes 2 e.m_channelInfo.getSubProcessorIdx
    ++ leBytes 2 e.m_channelInfo.getSourceIndex
    ++ leBytes 8 e.m_timestamp

/-! ## Basic facts about the memory primitives -/

theorem leBytes_length (n x : Nat) : (leBytes n x).length = n := by
  induction n generalizing x with
  | zero => rfl
  | succ n ih => simp [leBytes, ih]

theorem writeAt_length (buffer : List Nat) (off : Nat) (bs : List Nat) :
    (writeAt buffer off bs).length = buffer.length := by
  induction bs generalizing buffer off with
  | nil => rfl
  | cons b bs ih => simp [writeAt, ih]

/-- A store that starts where `pre` ends and fits into `rest` replaces the first bytes of
`rest`. -/
theorem writeAt_append (pre rest : List Nat) (off : Nat) (bs : List Nat)
    (hoff : pre.length = off) (hfit : bs.length ≤ rest.length) :
    writeAt (pre ++ rest) off bs = pre ++ bs ++ rest.drop bs.length := by
  induction bs generalizing pre rest off with
  | nil => simp [writeAt]
  | cons b bs ih =>
    cases rest with
    | nil => simp at hfit
    | cons r rest =>
      simp only [List.length_cons, Nat.add_le_add_iff_right] at hfit
      have hset : (pre ++ r :: rest).set off b = (pre ++ [b]) ++ rest := by
        subst hoff
        simp [List.set_append]
      rw [writeAt, hset, ih (pre ++ [b]) rest (off + 1) (by simp [hoff]) hfit]
      simp

/-- Load after store: the bytes of an `n`-byte store read back as the value modulo
`256 ^ n`. -/
theorem leValue_leBytes (n x : Nat) : leValue (leBytes n x) = x % 256 ^ n := by
  induction n generalizing x with
  | zero => simp [leBytes, leValue, Nat.mod_one]
  | succ n ih =>
    rw [leBytes, leValue, ih, Nat.pow_succ, Nat.mul_comm (256 ^ n) 256, Nat.mod_mul]

theorem writeAt_nil (buffer : List Nat) (off : Nat) : writeAt buffer off [] = buffer := rfl

/-- A store right after `pre`, into what is left of `buffer` from offset `k` on. -/
theorem writeAt_drop (pre buffer : List Nat) (k off : Nat) (bs : List Nat)
    (hoff : pre.length = off) (hfit : k + bs.length ≤ buffer.length) :
    writeAt (pre ++ buffer.drop k) off bs = (pre ++ bs) ++ buffer.drop (k + bs.length) := by
  rw [writeAt_append pre (buffer.drop k) off bs hoff (by simp; omega)]
  simp [List.drop_drop, Nat.add_comm]

/-- The 64-bit store of a 16-bit value has six zero bytes on top. -/
theorem leBytes_8_of_lt (x : Nat) (h : x < 2 ^ 16) :
    leBytes 8 x = leBytes 2 x ++ [0, 0, 0, 0, 0, 0] := by
  simp only [leBytes, List.cons_append, List.nil_append, List.cons.injEq, true_and, and_true]
  omega

theorem sizeT_of_lt (x : Nat) (h : x < 2 ^ 64) : sizeT x = x := Nat.mod_eq_of_lt h

theorem floatBytes_nil : floatBytes [] = [] := rfl

theorem floatBytes_cons (x : Nat) (xs : List Nat) :
    floatBytes (x :: xs) = leBytes 4 x ++ floatBytes xs := by
  simp [floatBytes]

theorem floatBytes_length (xs : List Nat) : (floatBytes xs).length = 4 * xs.length := by
  induction xs with
  | nil => rfl
  | cons x xs ih => rw [floatBytes_cons, List.length_append, leBytes_length, ih]; simp; omega

theorem writeAt_take (buffer : List Nat) (off : Nat) (bs : List Nat) :
    (writeAt buffer off bs).take off = buffer.take off := by
  induction bs generalizing buffer off with
  | nil => rfl
  | cons b bs ih =>
    rw [writeAt]
    have h := ih (buffer.set off b) (off + 1)
    have h2 := congrArg (List.take off) h
    simp only [List.take_take, Nat.min_eq_left (Nat.le_succ off)] at h2
    rw [h2]
    rw [List.set_take, List.set_eq_of_length_le (by simp)]

theorem writeThresholds_append (pre rest : List Nat) (memIdx : Nat) (ts : List Nat)
    (hoff : pre.length = memIdx) (hfit : 4 * ts.length ≤ rest.length) :
    writeThresholds (pre ++ rest) memIdx ts =
      (pre ++ floatBytes ts ++ rest.drop (4 * ts.length), memIdx + 4 * ts.length) := by
  induction ts generalizing pre rest memIdx with
  | nil => simp [writeThresholds, floatBytes_nil]
  | cons t ts ih =>
    simp only [List.length_cons] at hfit
    rw [writeThresholds, writeAt_append pre rest memIdx _ hoff (by rw [leBytes_length]; omega),
      ih (pre ++ leBytes 4 t) _ (memIdx + 4) (by simp [leBytes_length, hoff])
        (by simp [leBytes_length]; omega)]
    simp [floatBytes_cons, leBytes_length, List.drop_drop, Nat.mul_add, Nat.add_comm,
      Nat.add_left_comm, Nat.add_assoc]

theorem spikeHeader_length (e : SpikeEvent) : (spikeHeader e).length = 16 := by
  simp [spikeHeader, leBytes_length]

theorem SpikeEvent.serialize_take (SBS : Nat) (e : SpikeEvent) (buffer : List Nat)
    (hbase : 16 ≤ SBS)
    (hdata : 4 * e.m_data.length = e.m_channelInfo.getDataSize)
    (hlen : buffer.length = SBS + 4 * e.m_thresholds.length + e.m_channelInfo.getDataSize
      + e.m_channelInfo.getTotalEventMetaDataSize)
    (haddr : buffer.length < 2 ^ 64) :
    (e.serialize SBS buffer buffer.length).take
        (SBS + 4 * e.m_thresholds.length + e.m_channelInfo.getDataSize) =
      spikeHeader e ++ (buffer.drop 16).take (SBS - 16)
        ++ floatBytes e.m_thresholds ++ floatBytes e.m_data := by
  have hs1 : sizeT (e.m_channelInfo.getDataSize + SBS) = e.m_channelInfo.getDataSize + SBS :=
    sizeT_of_lt _ (by omega)
  have hs2 : sizeT (e.m_thresholds.length * 4) = e.m_thresholds.length * 4 :=
    sizeT_of_lt _ (by omega)
  have hs3 : sizeT (e.m_channelInfo.getDataSize + SBS + e.m_thresholds.length * 4)
      = e.m_channelInfo.getDataSize + SBS + e.m_thresholds.length * 4 :=
    sizeT_of_lt _ (by omega)
  have hs4 : sizeT (e.m_channelInfo.getDataSize + SBS + e.m_thresholds.length * 4
      + e.m_channelInfo.getTotalEventMetaDataSize)
      = e.m_channelInfo.getDataSize + SBS + e.m_thresholds.length * 4
        + e.m_channelInfo.getTotalEventMetaDataSize :=
    sizeT_of_lt _ (by omega)
  have hty : leBytes 1 e.m_channelInfo.getChannelType.toNat
      = [e.m_channelInfo.getChannelType.toNat] := by
    cases e.m_channelInfo.getChannelType <;> rfl
  have hidx : SBS + 4 * e.m_thresholds.length + e.m_channelInfo.getDataSize
      = e.m_channelInfo.getDataSize + SBS + e.m_thresholds.length * 4 := by omega
  -- the header stores
  have hhead : writeAt (writeAt (writeAt (writeAt (writeAt (writeAt buffer 0
        (leBytes 1 EventType.SPIKE_EVENT.toNat)) 1
        (leBytes 1 e.m_channelInfo.getChannelType.toNat)) 2
        (leBytes 2 e.m_channelInfo.getSourceNodeID)) 4
        (leBytes 2 e.m_channelInfo.getSubProcessorIdx)) 6
        (leBytes 2 e.m_channelInfo.getSourceIndex)) 8 (leBytes 8 e.m_timestamp)
      = (spikeHeader e ++ (buffer.drop 16).take (SBS - 16)) ++ buffer.drop SBS := by
    have hb : buffer = [] ++ buffer.drop 0 := by simp
    conv_lhs => rw [hb]
    rw [writeAt_drop _ _ _ _ _ (by simp) (by simp [leBytes_length]; omega)]
    rw [writeAt_drop _ _ _ _ _ (by simp [leBytes_length]) (by simp [leBytes_length]; omega)]
    rw [writeAt_drop _ _ _ _ _ (by simp [leBytes_length]) (by simp [leBytes_length]; omega)]
    rw [writeAt_drop _ _ _ _ _ (by simp [leBytes_length]) (by simp [leBytes_length]; omega)]
    rw [writeAt_drop _ _ _ _ _ (by simp [leBytes_length]) (by simp [leBytes_length]; omega)]
    rw [writeAt_drop _ _ _ _ _ (by simp [leBytes_length]) (by simp [leBytes_length]; omega)]
    have hsplit : buffer.drop 16 = (buffer.drop 16).take (SBS - 16) ++ buffer.drop SBS := by
      conv_lhs => rw [← List.take_append_drop (SBS - 16) (buffer.drop 16)]
      rw [List.drop_drop]
      congr 2
      omega
    rw [List.append_assoc _ _ (buffer.drop SBS), ← hsplit, hty]
    simp [spikeHeader, leBytes_length, leBytes, EventType.toNat]
  have hprelen : (spikeHeader e ++ (buffer.drop 16).take (SBS - 16)).length = SBS := by
    rw [List.length_append, spikeHeader_length, List.length_take, List.length_drop]
    omega
  unfold SpikeEvent.serialize
  simp only [hs1, hs2, hs3, hs4]
  rw [if_neg (by omega), hhead,
    writeThresholds_append _ _ _ _ hprelen (by rw [List.length_drop]; omega)]
  simp only [serializeMetaData, memcpy]
  rw [hidx, writeAt_take,
    writeAt_append _ _ _ _ (by
      rw [List.length_append, hprelen, floatBytes_length]) (by
      rw [List.length_take, floatBytes_length, List.length_drop, List.length_drop]; omega)]
  have htk : (floatBytes e.m_data).take e.m_channelInfo.getDataSize = floatBytes e.m_data :=
    List.take_of_length_le (by rw [floatBytes_length]; omega)
  rw [htk]
  exact List.take_left' (by
    simp only [List.length_append, hprelen, floatBytes_length]; omega)

theorem readAt_take (l : List Nat) (n off k : Nat) (h : off + k ≤ n) :
    readAt (l.take n) off k = readAt l off k := by
  unfold readAt
  rw [List.drop_take, List.take_take, Nat.min_eq_left (by omega)]

theorem readAt_append_mid (A L B : List Nat) (k m : Nat) (h : k + m ≤ L.length) :
    readAt (A ++ L ++ B) (A.length + k) m = readAt L k m := by
  unfold readAt
  rw [List.append_assoc, List.drop_append, List.drop_append_of_le_length (by omega),
    List.take_append_of_le_length (by rw [List.length_drop]; omega)]

theorem floatBytes_readAt (xs : List Nat) (i : Nat) (h : i < xs.length) :
    readAt (floatBytes xs) (4 * i) 4 = leBytes 4 (xs.getD i 0) := by
  induction xs generalizing i with
  | nil => simp at h
  | cons x xs ih =>
    rw [floatBytes_cons]
    cases i with
    | zero =>
      simp only [readAt, Nat.mul_zero, List.drop_zero, List.getD_cons_zero]
      exact List.take_left' (leBytes_length 4 x)
    | succ i =>
      have h4 : 4 * (i + 1) = (leBytes 4 x).length + 4 * i := by rw [leBytes_length]; omega
      have := ih i (by simpa using h)
      unfold readAt at this ⊢
      rw [h4, List.drop_append, this]
      simp


/-! ## The decoders never return an event

`TTLEvent::deserializeFromMessage` goes on only if the pointer `buffer + 0` equals 1 and
the pointer `buffer + 1` equals 3; `SpikeEvent::deserializeFromMessage` only if
`buffer + 0` equals 2 and `buffer + 1` equals the electrode type (0, 1 or 2). No
address satisfies both tests. -/

theorem TTLEvent.deserializeFromMessage_ttl_eq_none (msg : MidiMessage) (info : EventChannel)
    (ret : Bool) : TTLEvent.deserializeFromMessage msg info ret = none := by
  unfold TTLEvent.deserializeFromMessage
  simp only [EventType.toNat, EventChannelTypes.toNat]
  by_cases h0 : msg.rawData = 1
  · simp [h0]
  · simp [h0]

theorem SpikeEvent.deserializeFromMessage_spike_eq_none (sbs : Nat) (msg : MidiMessage)
    (info : SpikeChannel) (ret : Bool) :
    SpikeEvent.deserializeFromMessage sbs msg info ret = none := by
  unfold SpikeEvent.deserializeFromMessage
  simp only [EventType.toNat]
  by_cases h0 : msg.rawData = 2
  · have h1 : 2 + 1 ≠ info.getChannelType.toNat := by
      cases info.getChannelType <;> simp [ElectrodeTypes.toNat]
    simp [h0, h1]
  · simp [h0]

/-! ## C1, C2: round trips -/

/-- C1, evaluated on scenario 1 (TTL descriptor with 8 channels, timestamp
0x0102030405060708, channel 3, word 0x08): `createTTLEvent` returns an event,
`serialize` writes the 25-byte message of the layout table, and
`TTLEvent::deserializeFromMessage` returns no event for that message, at every address
of the message and whatever the uninitialised `ret` holds. The round trip of the claim
does not hold on the code. -/
theorem C1_ttl_round_trip_returns_no_event :
    ∃ e : TTLEvent,
      TTLEvent.createTTLEvent (some scenarioTTL) 0x0102030405060708 [0x08] 1 3 = some e ∧
      e.getState = true ∧
      e.serialize (List.replicate 25 0) 25 =
        [1, 3, 100, 0, 1, 0, 2, 0, 8, 7, 6, 5, 4, 3, 2, 1, 3, 0, 0, 0, 0, 0, 0, 0, 8] ∧
      ∀ (rawData : Nat) (ret : Bool),
        TTLEvent.deserializeFromMessage ⟨rawData, e.serialize (List.replicate 25 0) 25⟩
          scenarioTTL ret = none :=
  ⟨_, rfl, by decide, by decide,
    fun _ _ => TTLEvent.deserializeFromMessage_ttl_eq_none _ _ _⟩

/-- C2, evaluated on scenario 4 (tetrode descriptor, thresholds 10, 20, 30, 40, lane `k`
of the buffer filled with `k`): `createSpikeEvent` returns an event that holds the
thresholds and the 160 samples, and `SpikeEvent::deserializeFromMessage` returns no event
for its serialization, for every value of `SPIKE_BASE_SIZE`, every address of the
message and whatever the uninitialised `ret` holds. The round trip of the claim does
not hold on the code. -/
theorem C2_spike_round_trip_returns_no_event :
    ∃ e : SpikeEvent,
      (SpikeEvent.createSpikeEvent (some scenarioTetrode) 1000 scenarioThresholds
        scenarioSpikeBuffer).1 = some e ∧
      e.m_thresholds = scenarioThresholds ∧
      e.m_data = scenarioSpikeBuffer.m_data ∧
      ∀ (SPIKE_BASE_SIZE rawData : Nat) (ret : Bool),
        SpikeEvent.deserializeFromMessage SPIKE_BASE_SIZE
          ⟨rawData, e.serialize SPIKE_BASE_SIZE
            (List.replicate (SPIKE_BASE_SIZE + 4 * 4 + 640) 0) (SPIKE_BASE_SIZE + 4 * 4 + 640)⟩
          scenarioTetrode ret = none :=
  ⟨_, rfl, rfl, rfl, fun _ _ _ => SpikeEvent.deserializeFromMessage_spike_eq_none _ _ _ _⟩

/-! ## C3: layout of a serialized TTL event -/

/-- C3: for every TTL event whose descriptor has payload size `D` and no event metadata
(so the event carries `D` payload bytes, no metadata values, a 16-bit channel), and
every destination region of exactly `24 + D` bytes, whatever it holds,
`TTLEvent::serialize` leaves in the region exactly: byte 0 = 1 (PROCESSOR_EVENT), byte 1 =
3 (TTL), the source node id, the sub-processor index and the source index as 16-bit
little-endian values, the 8 timestamp bytes, the channel as a 16-bit value, six zero
bytes, and the `D` bytes of the TTL word. No byte keeps its initial content. -/
theorem C3_ttl_serialize_layout (e : TTLEvent) (buffer : List Nat)
    (hmeta : e.m_channelInfo.m_eventMetaData = [])
    (hvals : e.m_metaDataValues = [])
    (hdata : e.m_data.length = e.m_channelInfo.getDataSize)
    (hch : e.m_channel < 2 ^ 16)
    (hlen : buffer.length = 24 + e.m_channelInfo.getDataSize)
    (haddr : buffer.length < 2 ^ 64) :
    e.serialize buffer (24 + e.m_channelInfo.getDataSize) =
      [1, 3] ++ leBytes 2 e.m_channelInfo.getSourceNodeID
        ++ leBytes 2 e.m_channelInfo.getSubProcessorIdx
        ++ leBytes 2 e.m_channelInfo.getSourceIndex
        ++ leBytes 8 e.m_timestamp
        ++ leBytes 2 e.m_channel ++ [0, 0, 0, 0, 0, 0]
        ++ e.m_data := by
  have hsz : sizeT (e.m_channelInfo.getDataSize + EVENT_BASE_SIZE)
      = e.m_channelInfo.getDataSize + 24 := by
    rw [sizeT_of_lt] <;> simp only [EVENT_BASE_SIZE] ; omega
  have hM : e.m_channelInfo.getTotalEventMetaDataSize = 0 := by
    simp [EventChannel.getTotalEventMetaDataSize, hmeta, totalEventMetaDataSize]
  have hsz2 : sizeT (e.m_channelInfo.getDataSize + 24) = e.m_channelInfo.getDataSize + 24 := by
    rw [sizeT_of_lt]; omega
  have hb : buffer = [] ++ buffer.drop 0 := by simp
  have hdrop : ∀ n, buffer.length ≤ n → buffer.drop n = [] := fun n hn =>
    List.drop_eq_nil_of_le hn
  unfold TTLEvent.serialize Event.serializeHeader
  simp only [hsz, hM, Nat.add_zero, hsz2]
  rw [if_neg (by omega)]
  simp only [serializeMetaData, hvals, List.flatMap_nil, writeAt_nil, memcpy]
  rw [hb]
  rw [writeAt_drop _ _ _ _ _ (by simp) (by simp [leBytes_length]; omega)]
  rw [writeAt_drop _ _ _ _ _ (by simp [leBytes_length]) (by simp [leBytes_length]; omega)]
  rw [writeAt_drop _ _ _ _ _ (by simp [leBytes_length]) (by simp [leBytes_length]; omega)]
  rw [writeAt_drop _ _ _ _ _ (by simp [leBytes_length]) (by simp [leBytes_length]; omega)]
  rw [writeAt_drop _ _ _ _ _ (by simp [leBytes_length]) (by simp [leBytes_length]; omega)]
  rw [writeAt_drop _ _ _ _ _ (by simp [leBytes_length]) (by simp [leBytes_length]; omega)]
  rw [writeAt_drop _ _ _ _ _ (by simp [leBytes_length]) (by simp [leBytes_length]; omega)]
  rw [writeAt_drop _ _ _ _ _ (by simp [leBytes_length, EVENT_BASE_SIZE])
    (by simp [leBytes_length]; omega)]
  rw [hdrop _ (by simp [leBytes_length]; omega), leBytes_8_of_lt _ hch,
    List.take_of_length_le (by omega)]
  simp [leBytes, EventType.toNat, EventChannelTypes.toNat]

/-- Witness of C3: the event of scenario 1 and a 25-byte region filled with 255. -/
theorem C3_ttl_serialize_layout_witness :
    (TTLEvent.ctor scenarioTTL 0x0102030405060708 3 [0x08]).serialize
        (List.replicate 25 255) (24 + scenarioTTL.getDataSize) =
      [1, 3] ++ leBytes 2 100 ++ leBytes 2 1 ++ leBytes 2 2
        ++ leBytes 8 0x0102030405060708 ++ leBytes 2 3 ++ [0, 0, 0, 0, 0, 0] ++ [0x08] :=
  C3_ttl_serialize_layout (TTLEvent.ctor scenarioTTL 0x0102030405060708 3 [0x08])
    (List.replicate 25 255) rfl rfl rfl (by decide) rfl (by decide)

/-! ## C4: layout of a serialized spike event -/

/-- C4: for every spike event with `C = numChannels` thresholds and `C × totalSamples`
samples (payload size `D`), every `SPIKE_BASE_SIZE` of at least 16, and every destination
region of exactly `SPIKE_BASE_SIZE + 4*C + D + M` bytes, after `SpikeEvent::serialize` the
first 16 bytes are: byte 0 = 2 (SPIKE_EVENT), byte 1 = the electrode type, the three
16-bit provenance fields, the 8 timestamp bytes; for every `i < C` the four bytes at
`SPIKE_BASE_SIZE + 4*i` are threshold `i`; the `D` bytes from `SPIKE_BASE_SIZE + 4*C` on
are the sample array, and sample `s` of channel `c` is at
`SPIKE_BASE_SIZE + 4*C + 4*(c*totalSamples + s)` (channel-major). -/
theorem C4_spike_serialize_layout (SPIKE_BASE_SIZE : Nat) (e : SpikeEvent) (buffer : List Nat)
    (hbase : 16 ≤ SPIKE_BASE_SIZE)
    (hthr : e.m_thresholds.length = e.m_channelInfo.getNumChannels)
    (hdata : e.m_data.length = e.m_channelInfo.getNumChannels * e.m_channelInfo.getTotalSamples)
    (hlen : buffer.length = SPIKE_BASE_SIZE + 4 * e.m_channelInfo.getNumChannels
      + e.m_channelInfo.getDataSize + e.m_channelInfo.getTotalEventMetaDataSize)
    (haddr : buffer.length < 2 ^ 64) :
    (e.serialize SPIKE_BASE_SIZE buffer
        (SPIKE_BASE_SIZE + 4 * e.m_channelInfo.getNumChannels
          + e.m_channelInfo.getDataSize + e.m_channelInfo.getTotalEventMetaDataSize)).take 16 =
      [2, e.m_channelInfo.getChannelType.toNat] ++ leBytes 2 e.m_channelInfo.getSourceNodeID
        ++ leBytes 2 e.m_channelInfo.getSubProcessorIdx
        ++ leBytes 2 e.m_channelInfo.getSourceIndex
        ++ leBytes 8 e.m_timestamp ∧
    (∀ i, i < e.m_channelInfo.getNumChannels →
      readAt (e.serialize SPIKE_BASE_SIZE buffer
        (SPIKE_BASE_SIZE + 4 * e.m_channelInfo.getNumChannels
          + e.m_channelInfo.getDataSize + e.m_channelInfo.getTotalEventMetaDataSize))
        (SPIKE_BASE_SIZE + 4 * i) 4 = leBytes 4 (e.getThreshold i)) ∧
    readAt (e.serialize SPIKE_BASE_SIZE buffer
        (SPIKE_BASE_SIZE + 4 * e.m_channelInfo.getNumChannels
          + e.m_channelInfo.getDataSize + e.m_channelInfo.getTotalEventMetaDataSize))
        (SPIKE_BASE_SIZE + 4 * e.m_channelInfo.getNumChannels) e.m_channelInfo.getDataSize
      = floatBytes e.m_data ∧
    (∀ c s, c < e.m_channelInfo.getNumChannels → s < e.m_channelInfo.getTotalSamples →
      readAt (e.serialize SPIKE_BASE_SIZE buffer
        (SPIKE_BASE_SIZE + 4 * e.m_channelInfo.getNumChannels
          + e.m_channelInfo.getDataSize + e.m_channelInfo.getTotalEventMetaDataSize))
        (SPIKE_BASE_SIZE + 4 * e.m_channelInfo.getNumChannels
          + 4 * (c * e.m_channelInfo.getTotalSamples + s)) 4
        = leBytes 4 (e.m_data.getD (c * e.m_channelInfo.getTotalSamples + s) 0)) := by
  have hD : e.m_channelInfo.getDataSize = 4 * e.m_data.length := by
    rw [hdata]; simp only [SpikeChannel.getDataSize]; omega
  rw [← hlen]
  have hlen' : buffer.length = SPIKE_BASE_SIZE + 4 * e.m_thresholds.length
      + e.m_channelInfo.getDataSize + e.m_channelInfo.getTotalEventMetaDataSize := by
    rw [hthr]; exact hlen
  have key := SpikeEvent.serialize_take SPIKE_BASE_SIZE e buffer hbase hD.symm hlen' haddr
  rw [hthr] at key
  have hprelen : (spikeHeader e ++ (buffer.drop 16).take (SPIKE_BASE_SIZE - 16)).length
      = SPIKE_BASE_SIZE := by
    rw [List.length_append, spikeHeader_length, List.length_take, List.length_drop]
    omega
  have hfl : (floatBytes e.m_thresholds).length = 4 * e.m_channelInfo.getNumChannels := by
    rw [floatBytes_length, hthr]
  have hfd : (floatBytes e.m_data).length = e.m_channelInfo.getDataSize := by
    rw [floatBytes_length, hD]
  refine ⟨?_, ?_, ?_, ?_⟩
  · have h16 := congrArg (List.take 16) key
    rw [List.take_take, Nat.min_eq_left (by omega)] at h16
    rw [h16, List.append_assoc, List.append_assoc, List.take_left' (spikeHeader_length e)]
    rfl
  · intro i hi
    have hmid := readAt_append_mid (spikeHeader e ++ (buffer.drop 16).take (SPIKE_BASE_SIZE - 16))
      (floatBytes e.m_thresholds) (floatBytes e.m_data) (4 * i) 4 (by omega)
    rw [hprelen] at hmid
    rw [← readAt_take _ (SPIKE_BASE_SIZE + 4 * e.m_channelInfo.getNumChannels
      + e.m_channelInfo.getDataSize) _ _ (by omega), key, hmid,
      floatBytes_readAt _ _ (by omega)]
    rfl
  · have hmid := readAt_append_mid
      (spikeHeader e ++ (buffer.drop 16).take (SPIKE_BASE_SIZE - 16) ++ floatBytes e.m_thresholds)
      (floatBytes e.m_data) [] 0 e.m_channelInfo.getDataSize (by omega)
    rw [List.length_append, hprelen, hfl, List.append_nil, Nat.add_zero] at hmid
    rw [← readAt_take _ (SPIKE_BASE_SIZE + 4 * e.m_channelInfo.getNumChannels
      + e.m_channelInfo.getDataSize) _ _ (by omega), key, hmid]
    simp only [readAt, List.drop_zero]
    exact List.take_of_length_le (by omega)
  · intro c s hc hs
    have hmul : (c + 1) * e.m_channelInfo.getTotalSamples
        ≤ e.m_channelInfo.getNumChannels * e.m_channelInfo.getTotalSamples :=
      Nat.mul_le_mul_right _ hc
    have hin : c * e.m_channelInfo.getTotalSamples + s < e.m_data.length := by
      rw [Nat.succ_mul] at hmul
      omega
    have hmid := readAt_append_mid
      (spikeHeader e ++ (buffer.drop 16).take (SPIKE_BASE_SIZE - 16) ++ floatBytes e.m_thresholds)
      (floatBytes e.m_data) [] (4 * (c * e.m_channelInfo.getTotalSamples + s)) 4 (by omega)
    rw [List.length_append, hprelen, hfl, List.append_nil] at hmid
    rw [← readAt_take _ (SPIKE_BASE_SIZE + 4 * e.m_channelInfo.getNumChannels
      + e.m_channelInfo.getDataSize) _ _ (by omega), key, hmid,
      floatBytes_readAt _ _ hin]

/-- Witness of C4: a single-electrode spike of two samples, `SPIKE_BASE_SIZE = 18`, and a
30-byte region filled with 255. -/
theorem C4_spike_serialize_layout_witness :
    (smallSpike.serialize 18 (List.replicate 30 255) 30).take 16 =
      [2, 0] ++ leBytes 2 100 ++ leBytes 2 1 ++ leBytes 2 0 ++ leBytes 8 7 ∧
    readAt (smallSpike.serialize 18 (List.replicate 30 255) 30) 22 8 =
      floatBytes [0x3F800000, 0x40000000] :=
  have h := C4_spike_serialize_layout 18 smallSpike (List.replicate 30 255)
    (by decide) rfl rfl rfl (by decide)
  ⟨h.1, h.2.2.1⟩

/-! ## C5: the destination-size test -/

/-- C5, evaluated: the TTL event of scenario 1 has a message of 25 bytes. Called with
`dstSize = 26` on a region of 26 bytes (larger than the message), `serializeHeader`
returns `false` and `TTLEvent::serialize` writes nothing; called with `dstSize = 10`
(too small) it makes all its stores, 25 bytes. Likewise `SpikeEvent::serialize`, for a
spike whose message has 30 bytes (`SPIKE_BASE_SIZE = 18`): nothing is written for
`dstSize = 31`, the stores are made for `dstSize = 20`. The test refuses larger
destinations and accepts smaller ones, the reverse of the claim. -/
theorem C5_dstSize_test_is_reversed :
    sizeT (sizeT (scenarioTTL.getDataSize + EVENT_BASE_SIZE)
      + scenarioTTL.getTotalEventMetaDataSize) = 25 ∧
    (scenarioTTLEvent.toEvent.serializeHeader EventChannelTypes.TTL
        (List.replicate 26 255) 26).1 = false ∧
    scenarioTTLEvent.serialize (List.replicate 26 255) 26 = List.replicate 26 255 ∧
    scenarioTTLEvent.serialize (List.replicate 25 255) 10 =
      [1, 3, 100, 0, 1, 0, 2, 0, 8, 7, 6, 5, 4, 3, 2, 1, 3, 0, 0, 0, 0, 0, 0, 0, 8] ∧
    smallSingle.getDataSize + 18 + 4 * smallSpike.m_thresholds.length
      + smallSingle.getTotalEventMetaDataSize = 30 ∧
    smallSpike.serialize 18 (List.replicate 31 255) 31 = List.replicate 31 255 ∧
    smallSpike.serialize 18 (List.replicate 30 255) 20 =
      [2, 0, 100, 0, 1, 0, 0, 0, 7, 0, 0, 0, 0, 0, 0, 0, 255, 255, 0, 0, 32, 65,
        0, 0, 128, 63, 0, 0, 0, 64] := by
  refine ⟨?_, ?_, ?_, ?_, ?_, ?_, ?_⟩ <;> decide

/-! ## C6: success of the TTL factory -/

/-- C6: for every TTL descriptor with no event-metadata slot, every channel below
`numChannels` and every source region of `dataSize` bytes, `dataSize` an `int` not below
the descriptor's `dataSize`, the metadata-less `TTLEvent::createTTLEvent` returns an
event bound to the descriptor whose timestamp and channel are the arguments and whose
TTL word is the first `descriptor.dataSize` bytes of the source; any other source
with the same first `descriptor.dataSize` bytes gives the same event. -/
theorem C6_createTTLEvent_success (info : EventChannel) (timestamp channel : Nat)
    (eventData : List Nat) (dataSize : Int)
    (htype : info.getChannelType = EventChannelTypes.TTL)
    (hmeta : info.getEventMetaDataCount = 0)
    (hch : channel < info.getNumChannels)
    (hsrc : (eventData.length : Int) = dataSize)
    (hint : dataSize < 2 ^ 31)
    (hsize : (info.getDataSize : Int) ≤ dataSize) :
    ∃ e : TTLEvent,
      TTLEvent.createTTLEvent (some info) timestamp eventData dataSize channel = some e ∧
      e.m_timestamp = timestamp ∧ e.m_channel = channel ∧ e.m_channelInfo = info ∧
      e.m_data = eventData.take info.getDataSize ∧
      e.m_data.length = info.getDataSize ∧
      ∀ (eventData' : List Nat) (dataSize' : Int),
        (eventData'.length : Int) = dataSize' → dataSize' < 2 ^ 31 →
        (info.getDataSize : Int) ≤ dataSize' →
        eventData'.take info.getDataSize = eventData.take info.getDataSize →
        TTLEvent.createTTLEvent (some info) timestamp eventData' dataSize' channel = some e := by
  have hchk : Event.createChecks (some info) EventChannelTypes.TTL channel = true := by
    simp [Event.createChecks, htype, hmeta, hch]
  have hconv : ∀ d : Int, (info.getDataSize : Int) ≤ d → d < 2 ^ 31 →
      ¬ intToSizeT d < info.getDataSize := by
    intro d h1 h2
    unfold intToSizeT
    omega
  refine ⟨TTLEvent.ctor info timestamp channel eventData, ?_, rfl, rfl, rfl, rfl, ?_, ?_⟩
  · simp [TTLEvent.createTTLEvent, hchk, hconv dataSize hsize hint]
  · simp only [TTLEvent.ctor, List.length_take]
    omega
  · intro eventData' dataSize' h1 h2 h3 h4
    simp [TTLEvent.createTTLEvent, hchk, hconv dataSize' h3 h2, TTLEvent.ctor, h4]

/-- Witness of C6: scenario 1 with a source region of three bytes. -/
theorem C6_createTTLEvent_success_witness :
    ∃ e : TTLEvent,
      TTLEvent.createTTLEvent (some scenarioTTL) 77 [0x08, 0xAA, 0xBB] 3 3 = some e ∧
      e.m_timestamp = 77 ∧ e.m_channel = 3 ∧ e.m_data = [0x08] :=
  have ⟨e, h1, h2, h3, _, h5, _⟩ := C6_createTTLEvent_success scenarioTTL 77 3
    [0x08, 0xAA, 0xBB] 3 rfl rfl (by decide) rfl (by decide) (by decide)
  ⟨e, h1, h2, h3, h5⟩

/-! ## C7: caller-supplied byte counts below the payload size -/

/-- For a non-negative count below the payload size `createTTLEvent` returns no event. -/
theorem TTLEvent.createTTLEvent_eq_none_of_small (channelInfo : Option EventChannel)
    (timestamp : Nat) (eventData : List Nat) (dataSize : Int) (channel : Nat)
    (h0 : 0 ≤ dataSize)
    (h : ∀ info, channelInfo = some info → dataSize < (info.getDataSize : Int)) :
    TTLEvent.createTTLEvent channelInfo timestamp eventData dataSize channel = none := by
  cases channelInfo with
  | none => simp [TTLEvent.createTTLEvent]
  | some info =>
    have hlt : intToSizeT dataSize < info.getDataSize := by
      have := h info rfl
      unfold intToSizeT
      omega
    simp [TTLEvent.createTTLEvent, hlt]

/-- C7, evaluated: the descriptor of scenario 1 has `dataSize = 1`, and the count `-1` is
less than 1; yet `createTTLEvent` (with and without metadata) and `createBinaryEvent`
called with the count `-1` return an event. The `int` count is converted to `size_t`
for the comparison, so a negative count is never too small. -/
theorem C7_negative_count_is_accepted :
    (-1 : Int) < (scenarioTTL.getDataSize : Int) ∧
    TTLEvent.createTTLEvent (some scenarioTTL) 0x0102030405060708 [0x08] (-1) 3
      = some scenarioTTLEvent ∧
    TTLEvent.createTTLEventMeta (some scenarioTTL) 0x0102030405060708 [0x08] (-1) [] 3
      = some scenarioTTLEvent ∧
    BinaryEvent.createBinaryEvent ElementType.uint8 (some scenarioTTL) 0x0102030405060708
      [0x08] (-1) 3
      = some (BinaryEvent.ctor scenarioTTL 0x0102030405060708 3 [0x08]
          EventChannelTypes.UINT8_ARRAY) := by
  refine ⟨?_, ?_, ?_, ?_⟩ <;> decide

/-! ## C8, C9: the type test of `createChecks` -/

/-- Both `createChecks` overloads refuse every descriptor that is not of type TTL, whatever
event type the factory declares. -/
theorem Event.createChecks_eq_false_of_not_TTL (info : EventChannel)
    (eventType : EventChannelTypes) (channel : Nat) (metaData : List MetaDataValue)
    (h : info.getChannelType ≠ EventChannelTypes.TTL) :
    Event.createChecks (some info) eventType channel = false ∧
    Event.createChecksMeta (some info) eventType channel metaData = false := by
  simp [Event.createChecks, Event.createChecksMeta, h]

/-- C8, evaluated: the descriptor of scenario 1 is of type TTL, which differs from TEXT
and from FLOAT_ARRAY; yet `createTextEvent` and `createBinaryEvent<float>`, with and
without metadata, return an event bound to it. `createChecks` compares the
descriptor's type with TTL and not with the factory's event type. -/
theorem C8_type_mismatch_is_accepted :
    scenarioTTL.getChannelType ≠ EventChannelTypes.TEXT ∧
    scenarioTTL.getChannelType ≠ BinaryEvent.getType ElementType.float ∧
    TextEvent.createTextEvent (some scenarioTTL) 5 "a" 3
      = some (TextEvent.ctor scenarioTTL 5 3 "a") ∧
    TextEvent.createTextEventMeta (some scenarioTTL) 5 "a" [] 3
      = some (TextEvent.ctor scenarioTTL 5 3 "a") ∧
    BinaryEvent.createBinaryEvent ElementType.float (some scenarioTTL) 5 [0x08] 1 3
      = some (BinaryEvent.ctor scenarioTTL 5 3 [0x08] EventChannelTypes.FLOAT_ARRAY) ∧
    BinaryEvent.createBinaryEventMeta ElementType.float (some scenarioTTL) 5 [0x08] 1 [] 3
      = some (BinaryEvent.ctor scenarioTTL 5 3 [0x08] EventChannelTypes.FLOAT_ARRAY) := by
  refine ⟨?_, ?_, ?_, ?_, ?_, ?_⟩ <;> decide

/-- C9, evaluated: on the TEXT descriptor of scenario 2 (`length = 16`, no event metadata)
`createTextEvent` with the text "hello" and channel 0 returns no event; on the
FLOAT_ARRAY descriptor of scenario 3 (`length = 4`) `createBinaryEvent<float>` with the
16 bytes of `[1.0, -2.0, 3.5, 0.0]` and channel 0 returns no event. Both requests are
valid; `createChecks` refuses every descriptor that is not of type TTL. -/
theorem C9_valid_text_and_binary_requests_are_refused :
    "hello".length ≤ scenarioText.getLength ∧
    TextEvent.createTextEvent (some scenarioText) 5 "hello" 0 = none ∧
    (scenarioFloatArray.getDataSize : Int) ≤ 16 ∧
    BinaryEvent.createBinaryEvent ElementType.float (some scenarioFloatArray) 5
      scenarioFloatData 16 0 = none := by
  refine ⟨?_, ?_, ?_, ?_⟩ <;> decide

/-! ## C10: virtual channel out of range -/

/-- C10: for every descriptor and every virtual-channel index not below its
`numChannels`, the six processor-event factories (`createTTLEvent`, `createTextEvent`,
`createBinaryEvent<T>`, each with and without metadata) return no event, whatever the
other arguments are. -/
theorem C10_channel_out_of_range (info : EventChannel) (channel : Nat)
    (hch : info.getNumChannels ≤ channel) :
    (∀ timestamp eventData dataSize,
      TTLEvent.createTTLEvent (some info) timestamp eventData dataSize channel = none) ∧
    (∀ timestamp eventData dataSize metaData,
      TTLEvent.createTTLEventMeta (some info) timestamp eventData dataSize metaData channel
        = none) ∧
    (∀ timestamp text,
      TextEvent.createTextEvent (some info) timestamp text channel = none) ∧
    (∀ timestamp text metaData,
      TextEvent.createTextEventMeta (some info) timestamp text metaData channel = none) ∧
    (∀ T timestamp data dataSize,
      BinaryEvent.createBinaryEvent T (some info) timestamp data dataSize channel = none) ∧
    (∀ T timestamp data dataSize metaData,
      BinaryEvent.createBinaryEventMeta T (some info) timestamp data dataSize metaData channel
        = none) := by
  have h1 : ∀ ty, Event.createChecks (some info) ty channel = false := by
    intro ty
    simp only [Event.createChecks]
    split_ifs <;> rfl
  have h2 : ∀ ty md, Event.createChecksMeta (some info) ty channel md = false := by
    intro ty md
    simp only [Event.createChecksMeta]
    split_ifs <;> rfl
  refine ⟨?_, ?_, ?_, ?_, ?_, ?_⟩
  · intros; simp [TTLEvent.createTTLEvent, h1]
  · intros; simp [TTLEvent.createTTLEventMeta, h2]
  · intros; simp [TextEvent.createTextEvent, h1]
  · intros; simp [TextEvent.createTextEventMeta, h2]
  · intros; simp [BinaryEvent.createBinaryEvent, h1]
  · intros; simp [BinaryEvent.createBinaryEventMeta, h2]

/-- Witness of C10: channel 8 on the 8-channel descriptor of scenario 1. -/
theorem C10_channel_out_of_range_witness :
    scenarioTTL.getNumChannels ≤ 8 ∧
    TTLEvent.createTTLEvent (some scenarioTTL) 5 [0x08] 1 8 = none ∧
    BinaryEvent.createBinaryEventMeta ElementType.int8 (some scenarioTTL) 5 [0x08] 1 [] 8
      = none :=
  have h := C10_channel_out_of_range scenarioTTL 8 (by decide)
  ⟨by decide, h.1 5 [0x08] 1, h.2.2.2.2.2 ElementType.int8 5 [0x08] 1 []⟩


/-! ## Further facts: stores that do not fit, `compareMetaData`, the decoders -/

theorem writeAt_of_length_le (buffer : List Nat) (off : Nat) (bs : List Nat)
    (h : buffer.length ≤ off) : writeAt buffer off bs = buffer := by
  induction bs generalizing buffer off with
  | nil => rfl
  | cons b bs ih =>
    rw [writeAt, List.set_eq_of_length_le h]
    exact ih buffer (off + 1) (by omega)

/-- Only the part of a store that fits in the region is made. -/
theorem writeAt_take_fit (buffer : List Nat) (off : Nat) (bs : List Nat) :
    writeAt buffer off bs = writeAt buffer off (bs.take (buffer.length - off)) := by
  induction bs generalizing buffer off with
  | nil => simp
  | cons b bs ih =>
    by_cases h : buffer.length ≤ off
    · rw [writeAt_of_length_le _ _ _ h, writeAt_of_length_le _ _ _ h]
    · have hpos : buffer.length - off = (buffer.length - (off + 1)) + 1 := by omega
      rw [hpos, List.take_succ_cons, writeAt, writeAt, ih (buffer.set off b) (off + 1)]
      simp

theorem zeromem_min (dst : List Nat) (off n : Nat) :
    zeromem dst off n = zeromem dst off (min n (dst.length - off)) := by
  unfold zeromem
  rw [writeAt_take_fit dst off (List.replicate n 0), List.take_replicate, Nat.min_comm]

/-- The zero fill of `TextEvent::serialize` with its count cut to what fits in the region. -/
theorem TextEvent.serialize_eq (e : TextEvent) (dstBuffer : List Nat) (dstSize : Nat) :
    e.serialize dstBuffer dstSize =
      match e.toEvent.serializeHeader EventChannelTypes.TEXT dstBuffer dstSize with
      | (false, buffer) => buffer
      | (true, buffer) =>
        let dataSize := e.m_channelInfo.getDataSize
        let stringSize := getNumBytesAsUTF8 e.m_text
        let copied := memcpy buffer EVENT_BASE_SIZE (utf8Bytes e.m_text) stringSize
        let filled :=
          if sizeTSub dataSize stringSize > 0 then
            zeromem copied (EVENT_BASE_SIZE + stringSize)
              (min (sizeTSub dataSize stringSize)
                (copied.length - (EVENT_BASE_SIZE + stringSize)))
          else copied
        serializeMetaData e.m_metaDataValues filled (sizeT (dataSize + EVENT_BASE_SIZE)) := by
  unfold TextEvent.serialize
  rcases e.toEvent.serializeHeader EventChannelTypes.TEXT dstBuffer dstSize with ⟨b, buffer⟩
  cases b
  · rfl
  · simp only [← zeromem_min]


/-- The loop of `compareMetaData` succeeds exactly when every slot it visits holds a value
of the type of its descriptor. -/
theorem compareMetaDataLoop_eq_true_iff (descs : List MetaDataDescriptor)
    (metaData : List MetaDataValue) (i fuel : Nat) :
    compareMetaDataLoop descs metaData i fuel = true ↔
      ∀ j, i ≤ j → j < i + fuel →
        ∃ v d, metaData[j]? = some v ∧ descs[j]? = some d ∧ v.isOfType d = true := by
  induction fuel generalizing i with
  | zero =>
    simp only [compareMetaDataLoop, true_iff]
    intro j h1 h2
    omega
  | succ fuel ih =>
    rw [compareMetaDataLoop]
    constructor
    · intro h j h1 h2
      cases hv : metaData[i]? with
      | none => simp [hv] at h
      | some v =>
        cases hd : descs[i]? with
        | none => simp [hv, hd] at h
        | some d =>
          simp only [hv, hd] at h
          by_cases ht : v.isOfType d = true
          · simp only [ht, Bool.not_true, Bool.false_eq_true, if_false] at h
            by_cases hji : j = i
            · subst hji
              exact ⟨v, d, hv, hd, ht⟩
            · exact (ih (i + 1)).1 h j (by omega) (by omega)
          · simp [ht] at h
    · intro h
      obtain ⟨v, d, hv, hd, ht⟩ := h i (Nat.le_refl i) (by omega)
      simp only [hv, hd, ht, Bool.not_true, Bool.false_eq_true, if_false]
      exact (ih (i + 1)).2 (fun j h1 h2 => h j (by omega) (by omega))

/-- The result of `compareMetaData` in terms of the two arrays. -/
theorem compareMetaData_eq_true_iff (descs : List MetaDataDescriptor)
    (metaData : List MetaDataValue) :
    EventBase.compareMetaData descs metaData = true ↔
      metaData.length = descs.length ∧
      ∀ (i : Nat) (v : MetaDataValue) (d : MetaDataDescriptor),
        metaData[i]? = some v → descs[i]? = some d → v.isOfType d = true := by
  unfold EventBase.compareMetaData
  by_cases hlen : metaData.length = descs.length
  · simp only [hlen, ne_eq, not_true_eq_false, if_false, true_and]
    rw [← hlen, compareMetaDataLoop_eq_true_iff]
    constructor
    · intro h i v d hv hd
      have hi : i < metaData.length := by
        rcases Nat.lt_or_ge i metaData.length with h' | h'
        · exact h'
        · rw [List.getElem?_eq_none h'] at hv; cases hv
      obtain ⟨v', d', hv', hd', ht⟩ := h i (Nat.zero_le i) (by omega)
      rw [hv] at hv'; rw [hd] at hd'
      cases hv'; cases hd'
      exact ht
    · intro h j _ hj
      have hj1 : j < metaData.length := by omega
      have hj2 : j < descs.length := by omega
      exact ⟨metaData[j], descs[j], List.getElem?_eq_getElem hj1, List.getElem?_eq_getElem hj2,
        h j _ _ (List.getElem?_eq_getElem hj1) (List.getElem?_eq_getElem hj2)⟩
  · simp [hlen]

theorem isOfType_eq_true_iff (v : MetaDataValue) (d : MetaDataDescriptor) :
    v.isOfType d = true ↔ v.m_type = d.m_type ∧ v.m_length = d.m_length := by
  simp [MetaDataValue.isOfType]

theorem compareMetaData_nil_left (metaData : List MetaDataValue) (hne : metaData ≠ []) :
    EventBase.compareMetaData [] metaData = false := by
  cases metaData with
  | nil => exact absurd rfl hne
  | cons v vs => simp [EventBase.compareMetaData]

theorem TextEvent.deserializeFromMessage_text_eq_none (decodeUTF8 : List Nat → Nat → String)
    (msg : MidiMessage) (info : EventChannel) (ret : Bool) :
    TextEvent.deserializeFromMessage decodeUTF8 msg info ret = none := by
  unfold TextEvent.deserializeFromMessage
  simp only [EventType.toNat, EventChannelTypes.toNat]
  by_cases h0 : msg.rawData = 1
  · simp [h0]
  · simp [h0]

theorem BinaryEvent.deserializeFromMessage_binary_eq_none (msg : MidiMessage)
    (info : EventChannel) (ret : Bool) (haddr : msg.rawData ≠ 1) :
    BinaryEvent.deserializeFromMessage msg info ret = none := by
  unfold BinaryEvent.deserializeFromMessage
  simp [EventType.toNat, haddr]

theorem sizeT_event_total (D M : Nat) (h : 24 + D + M < 2 ^ 64) :
    sizeT (sizeT (D + EVENT_BASE_SIZE) + M) = 24 + D + M := by
  simp only [EVENT_BASE_SIZE]
  rw [sizeT_of_lt (D + 24) (by omega), sizeT_of_lt _ (by omega)]
  omega

theorem sizeT_spike_total (S C D M : Nat) (h : S + 4 * C + D + M < 2 ^ 64) :
    sizeT (sizeT (sizeT (sizeT (C * 4) + D) + S) + M) = S + 4 * C + D + M := by
  rw [sizeT_of_lt (C * 4) (by omega), sizeT_of_lt (C * 4 + D) (by omega),
    sizeT_of_lt (C * 4 + D + S) (by omega), sizeT_of_lt _ (by omega)]
  omega

/-! ## C11, C12: text length and text payload -/

/-- For every descriptor (present or not) and every string whose number of characters
exceeds `descriptor.length`, `TextEvent::createTextEvent`, with and without metadata,
returns no event: the length test of the factories counts characters. -/
theorem TextEvent.createTextEvent_eq_none_of_many_characters
    (channelInfo : Option EventChannel)
    (timestamp : Nat) (text : String) (metaData : List MetaDataValue) (channel : Nat)
    (hlong : ∀ info, channelInfo = some info → info.getLength < text.length) :
    TextEvent.createTextEvent channelInfo timestamp text channel = none ∧
    TextEvent.createTextEventMeta channelInfo timestamp text metaData channel = none := by
  cases channelInfo with
  | none => simp [TextEvent.createTextEvent, TextEvent.createTextEventMeta,
      Event.createChecks, Event.createChecksMeta]
  | some info =>
    have h := hlong info rfl
    simp [TextEvent.createTextEvent, TextEvent.createTextEventMeta, h]

/-- C11, evaluated: the string "é" has one character and two UTF-8 bytes, more than the
`length = 1` (and the one payload byte) of the descriptor of scenario 1; yet
`createTextEvent`, with and without metadata, returns an event for it. The length test
of the factories compares the character count `text.length()`, here 1, with
`getLength()`, and the type test of `createChecks` lets the TTL descriptor through. -/
theorem C11_multibyte_text_is_accepted :
    getNumBytesAsUTF8 "é" = 2 ∧ "é".length = 1 ∧
    scenarioTTL.getLength = 1 ∧ scenarioTTL.getDataSize = 1 ∧
    TextEvent.createTextEvent (some scenarioTTL) 5 "é" 3
      = some (TextEvent.ctor scenarioTTL 5 3 "é") ∧
    TextEvent.createTextEventMeta (some scenarioTTL) 5 "é" [] 3
      = some (TextEvent.ctor scenarioTTL 5 3 "é") := by
  refine ⟨?_, ?_, ?_, ?_, ?_, ?_⟩ <;> decide

/-- C12, evaluated: `createTextEvent` returns a `TextEvent` with the text "é" on the
descriptor of scenario 1, whose payload size is `D = 1`; the text has 2 UTF-8 bytes.
Serialized into a destination of exactly 25 bytes, the payload byte at offset 24 is
0xC3, the first half of the character; on a region that extends past the 25 bytes
(filled with 255) the copy stores 0xA9 at offset 25 and the zero fill, whose count
`dataSize - stringSize` wraps to `2 ^ 64 - 1`, clears everything from offset 26 on. -/
theorem C12_text_payload_overruns :
    TextEvent.createTextEvent (some scenarioTTL) 5 "é" 3
      = some (TextEvent.ctor scenarioTTL 5 3 "é") ∧
    scenarioTTL.getDataSize = 1 ∧ utf8Bytes "é" = [0xC3, 0xA9] ∧
    sizeTSub scenarioTTL.getDataSize (getNumBytesAsUTF8 "é") = 2 ^ 64 - 1 ∧
    (TextEvent.ctor scenarioTTL 5 3 "é").serialize (List.replicate 25 255) 25 =
      [1, 5, 100, 0, 1, 0, 2, 0, 5, 0, 0, 0, 0, 0, 0, 0, 3, 0, 0, 0, 0, 0, 0, 0, 0xC3] ∧
    (TextEvent.ctor scenarioTTL 5 3 "é").serialize (List.replicate 32 255) 25 =
      [1, 5, 100, 0, 1, 0, 2, 0, 5, 0, 0, 0, 0, 0, 0, 0, 3, 0, 0, 0, 0, 0, 0, 0, 0xC3, 0xA9,
        0, 0, 0, 0, 0, 0] := by
  refine ⟨by decide, by decide, by decide, by decide, ?_, ?_⟩
  · rw [TextEvent.serialize_eq]; decide
  · rw [TextEvent.serialize_eq]; decide

/-! ## C13 to C16: event metadata -/

/-- C13: for every descriptor and every metadata-values vector for which
`EventBase::compareMetaData(descriptor, values)` is false, the metadata-carrying
`TTLEvent::createTTLEvent` returns no event; and when the vector matches, the
descriptor is of type TTL, the channel is below `numChannels` and the `int` count is
not below the payload size, it returns an event bound to the descriptor whose metadata
values are exactly the supplied vector, in order, with the timestamp, channel and
TTL word of the arguments. -/
theorem C13_metadata_shape_check (info : EventChannel) (timestamp : Nat)
    (eventData : List Nat) (dataSize : Int) (metaData : List MetaDataValue) (channel : Nat) :
    (EventBase.compareMetaData info.m_eventMetaData metaData = false →
      TTLEvent.createTTLEventMeta (some info) timestamp eventData dataSize metaData channel
        = none) ∧
    (EventBase.compareMetaData info.m_eventMetaData metaData = true →
      info.getChannelType = EventChannelTypes.TTL → channel < info.getNumChannels →
      (info.getDataSize : Int) ≤ dataSize → dataSize < 2 ^ 31 →
      ∃ e : TTLEvent,
        TTLEvent.createTTLEventMeta (some info) timestamp eventData dataSize metaData channel
          = some e ∧
        e.m_metaDataValues = metaData ∧ e.m_channelInfo = info ∧
        e.m_timestamp = timestamp ∧ e.m_channel = channel ∧
        e.m_data = eventData.take info.getDataSize) := by
  constructor
  · intro hcmp
    have hchk : Event.createChecksMeta (some info) EventChannelTypes.TTL channel metaData
        = false := by
      simp [Event.createChecksMeta, hcmp]
    simp [TTLEvent.createTTLEventMeta, hchk]
  · intro hcmp htype hch hsize hint
    have hchk : Event.createChecksMeta (some info) EventChannelTypes.TTL channel metaData
        = true := by
      simp [Event.createChecksMeta, hcmp, htype, hch]
    have hconv : ¬ intToSizeT dataSize < info.getDataSize := by
      unfold intToSizeT
      omega
    refine ⟨{ TTLEvent.ctor info timestamp channel eventData with
      m_metaDataValues := metaData }, ?_, rfl, rfl, rfl, rfl, rfl⟩
    simp [TTLEvent.createTTLEventMeta, hchk, hconv, TTLEvent.ctor, Event.ctor]

/-- Witness of C13 on scenario 5 (one INT16 slot): a UINT16 value is refused, an INT16
value is accepted and stored. -/
theorem C13_metadata_shape_check_witness :
    TTLEvent.createTTLEventMeta (some scenarioTTLMeta) 5 [0x08] 1 [scenarioUInt16Value] 3
      = none ∧
    ∃ e : TTLEvent,
      TTLEvent.createTTLEventMeta (some scenarioTTLMeta) 5 [0x08] 1 [scenarioInt16Value] 3
        = some e ∧ e.m_metaDataValues = [scenarioInt16Value] :=
  have h1 := (C13_metadata_shape_check scenarioTTLMeta 5 [0x08] 1
    [scenarioUInt16Value] 3).1 (by decide)
  have ⟨e, h2, h3, _⟩ := (C13_metadata_shape_check scenarioTTLMeta 5 [0x08] 1
    [scenarioInt16Value] 3).2
    (by decide) rfl (by decide) (by decide) (by decide)
  ⟨h1, e, h2, h3⟩

/-- C14: for every event descriptor and every spike descriptor that declare at least one
event-metadata slot, the metadata-less factories `createTTLEvent`, `createTextEvent`,
`createBinaryEvent<T>` and `SpikeEvent::createSpikeEvent` return no event, whatever the
other arguments are (and the spike buffer is left as it was). -/
theorem C14_metadata_present (info : EventChannel) (spikeInfo : SpikeChannel)
    (hslots : 1 ≤ info.getEventMetaDataCount)
    (hslotsS : 1 ≤ spikeInfo.getEventMetaDataCount) :
    (∀ timestamp eventData dataSize channel,
      TTLEvent.createTTLEvent (some info) timestamp eventData dataSize channel = none) ∧
    (∀ timestamp text channel,
      TextEvent.createTextEvent (some info) timestamp text channel = none) ∧
    (∀ T timestamp data dataSize channel,
      BinaryEvent.createBinaryEvent T (some info) timestamp data dataSize channel = none) ∧
    (∀ timestamp thresholds dataSource,
      SpikeEvent.createSpikeEvent (some spikeInfo) timestamp thresholds dataSource
        = (none, dataSource)) := by
  have hchk : ∀ ty channel, Event.createChecks (some info) ty channel = false := by
    intro ty channel
    have hne : info.getEventMetaDataCount ≠ 0 := by omega
    simp only [Event.createChecks]
    split_ifs <;> rfl
  have hneS : spikeInfo.getEventMetaDataCount ≠ 0 := by omega
  refine ⟨?_, ?_, ?_, ?_⟩
  · intros; simp [TTLEvent.createTTLEvent, hchk]
  · intros; simp [TextEvent.createTextEvent, hchk]
  · intros; simp [BinaryEvent.createBinaryEvent, hchk]
  · intros; simp [SpikeEvent.createSpikeEvent, hneS]

/-- Witness of C14: the descriptors of scenarios 1 and 4 with one INT16 slot added. -/
theorem C14_metadata_present_witness :
    TTLEvent.createTTLEvent (some scenarioTTLMeta) 5 [0x08] 1 3 = none ∧
    SpikeEvent.createSpikeEvent (some scenarioTetrodeMeta) 1000 scenarioThresholds
      scenarioSpikeBuffer = (none, scenarioSpikeBuffer) :=
  have h := C14_metadata_present scenarioTTLMeta scenarioTetrodeMeta (by decide) (by decide)
  ⟨h.1 5 [0x08] 1 3, h.2.2.2 1000 scenarioThresholds scenarioSpikeBuffer⟩

/-- C15 as stated fails: the descriptors of scenarios 1 and 4 declare no event-metadata
slot, and the metadata-carrying `createTTLEvent` and `createSpikeEvent` called with the
empty vector return an event (the one the metadata-less creation gives). -/
theorem C15_counterexample_empty_metadata_accepted :
    scenarioTTL.getEventMetaDataCount = 0 ∧
    TTLEvent.createTTLEventMeta (some scenarioTTL) 5 [0x08] 1 [] 3
      = some (TTLEvent.ctor scenarioTTL 5 3 [0x08]) ∧
    scenarioTetrode.getEventMetaDataCount = 0 ∧
    SpikeEvent.createSpikeEventMeta (some scenarioTetrode) 1000 scenarioThresholds
        scenarioSpikeBuffer []
      = SpikeEvent.createBasicSpike scenarioTetrode 1000 scenarioThresholds
          scenarioSpikeBuffer ∧
    (SpikeEvent.createSpikeEventMeta (some scenarioTetrode) 1000 scenarioThresholds
        scenarioSpikeBuffer []).1.isSome = true :=
  ⟨rfl, rfl, rfl, rfl, rfl⟩

/-- C15, amended: for every event descriptor and every spike descriptor that declare zero
event-metadata slots, every call of a metadata-carrying factory (`createTTLEvent`,
`createTextEvent`, `createBinaryEvent<T>`, `createSpikeEvent`) with a non-empty
metadata-values vector returns no event. -/
theorem C15_nonempty_metadata_without_slots (info : EventChannel)
    (spikeInfo : SpikeChannel)
    (metaData : List MetaDataValue)
    (hslots : info.getEventMetaDataCount = 0)
    (hslotsS : spikeInfo.getEventMetaDataCount = 0)
    (hne : metaData ≠ []) :
    (∀ timestamp eventData dataSize channel,
      TTLEvent.createTTLEventMeta (some info) timestamp eventData dataSize metaData channel
        = none) ∧
    (∀ timestamp text channel,
      TextEvent.createTextEventMeta (some info) timestamp text metaData channel = none) ∧
    (∀ T timestamp data dataSize channel,
      BinaryEvent.createBinaryEventMeta T (some info) timestamp data dataSize metaData channel
        = none) ∧
    (∀ timestamp thresholds dataSource,
      SpikeEvent.createSpikeEventMeta (some spikeInfo) timestamp thresholds dataSource metaData
        = (none, dataSource)) := by
  have hnil : info.m_eventMetaData = [] := List.length_eq_zero.mp hslots
  have hnilS : spikeInfo.m_eventMetaData = [] := List.length_eq_zero.mp hslotsS
  have hcmp := compareMetaData_nil_left metaData hne
  have hchk : ∀ ty channel, Event.createChecksMeta (some info) ty channel metaData = false := by
    intro ty channel
    simp [Event.createChecksMeta, hnil, hcmp]
  refine ⟨?_, ?_, ?_, ?_⟩
  · intros; simp [TTLEvent.createTTLEventMeta, hchk]
  · intros; simp [TextEvent.createTextEventMeta, hchk]
  · intros; simp [BinaryEvent.createBinaryEventMeta, hchk]
  · intros; simp [SpikeEvent.createSpikeEventMeta, hnilS, hcmp]

/-- Witness of amended C15: one INT16 value on the slot-less descriptors of scenarios 1
and 4. -/
theorem C15_nonempty_metadata_without_slots_witness :
    TTLEvent.createTTLEventMeta (some scenarioTTL) 5 [0x08] 1 [scenarioInt16Value] 3 = none ∧
    SpikeEvent.createSpikeEventMeta (some scenarioTetrode) 1000 scenarioThresholds
      scenarioSpikeBuffer [scenarioInt16Value] = (none, scenarioSpikeBuffer) :=
  have h := C15_nonempty_metadata_without_slots scenarioTTL scenarioTetrode
    [scenarioInt16Value] rfl rfl (by decide)
  ⟨h.1 5 [0x08] 1 3, h.2.2.2 1000 scenarioThresholds scenarioSpikeBuffer⟩

/-- C16: `EventBase::compareMetaData(descriptor, values)` returns true if and only if the
number of values equals the number of event-metadata slots and every value has the
element type and the length of the slot at its index; hence it is false when the
counts differ, and false when some slot holds a value of another type or length. -/
theorem C16_compareMetaData_iff (descs : List MetaDataDescriptor)
    (metaData : List MetaDataValue) :
    (EventBase.compareMetaData descs metaData = true ↔
      metaData.length = descs.length ∧
      ∀ (i : Nat) (v : MetaDataValue) (d : MetaDataDescriptor),
        metaData[i]? = some v → descs[i]? = some d →
        v.m_type = d.m_type ∧ v.m_length = d.m_length) ∧
    (metaData.length ≠ descs.length → EventBase.compareMetaData descs metaData = false) ∧
    (∀ (i : Nat) (v : MetaDataValue) (d : MetaDataDescriptor),
      metaData[i]? = some v → descs[i]? = some d →
      ¬ (v.m_type = d.m_type ∧ v.m_length = d.m_length) →
      EventBase.compareMetaData descs metaData = false) := by
  have key : EventBase.compareMetaData descs metaData = true ↔
      metaData.length = descs.length ∧
      ∀ (i : Nat) (v : MetaDataValue) (d : MetaDataDescriptor),
        metaData[i]? = some v → descs[i]? = some d →
        v.m_type = d.m_type ∧ v.m_length = d.m_length := by
    rw [compareMetaData_eq_true_iff]
    simp only [isOfType_eq_true_iff]
  refine ⟨key, ?_, ?_⟩
  · intro hne
    cases h : EventBase.compareMetaData descs metaData with
    | false => rfl
    | true => exact absurd (key.1 h).1 hne
  · intro i v d hv hd hne
    cases h : EventBase.compareMetaData descs metaData with
    | false => rfl
    | true => exact absurd ((key.1 h).2 i v d hv hd) hne

/-- Witness of C16 on the slot list of scenario 5: false for a UINT16 value, true for an
INT16 value. -/
theorem C16_compareMetaData_iff_witness :
    EventBase.compareMetaData [⟨MetaDataTypes.INT16, 1⟩] [scenarioUInt16Value] = false ∧
    EventBase.compareMetaData [⟨MetaDataTypes.INT16, 1⟩] [scenarioInt16Value] = true :=
  ⟨(C16_compareMetaData_iff [⟨MetaDataTypes.INT16, 1⟩] [scenarioUInt16Value]).2.2
      0 scenarioUInt16Value ⟨MetaDataTypes.INT16, 1⟩ rfl rfl (by decide),
    (C16_compareMetaData_iff [⟨MetaDataTypes.INT16, 1⟩] [scenarioInt16Value]).1.2
      ⟨rfl, fun i v d hv hd => by
        cases i with
        | zero =>
          simp only [List.getElem?_cons_zero, Option.some.injEq] at hv hd
          subst hv; subst hd
          exact ⟨rfl, rfl⟩
        | succ i => simp at hv⟩⟩

/-! ## C17, C18: the checks of the decoders -/

/-- C17: for every descriptor whose message size fits in a `size_t` and every message whose
length differs from the expected total (`24 + D + M` for `TTLEvent`, `TextEvent` and
`BinaryEvent::deserializeFromMessage`, `SPIKE_BASE_SIZE + 4*numChannels + D + M` for
`SpikeEvent::deserializeFromMessage`), the decoder returns no event. -/
theorem C17_decoder_length_check (SPIKE_BASE_SIZE : Nat)
    (decodeUTF8 : List Nat → Nat → String)
    (msg : MidiMessage) (info : EventChannel) (spikeInfo : SpikeChannel) (ret : Bool)
    (hfit : 24 + info.getDataSize + info.getTotalEventMetaDataSize < 2 ^ 64)
    (hlen : msg.getRawDataSize ≠ 24 + info.getDataSize + info.getTotalEventMetaDataSize)
    (hfitS : SPIKE_BASE_SIZE + 4 * spikeInfo.getNumChannels + spikeInfo.getDataSize
      + spikeInfo.getTotalEventMetaDataSize < 2 ^ 64)
    (hlenS : msg.getRawDataSize ≠ SPIKE_BASE_SIZE + 4 * spikeInfo.getNumChannels
      + spikeInfo.getDataSize + spikeInfo.getTotalEventMetaDataSize) :
    TTLEvent.deserializeFromMessage msg info ret = none ∧
    TextEvent.deserializeFromMessage decodeUTF8 msg info ret = none ∧
    BinaryEvent.deserializeFromMessage msg info ret = none ∧
    SpikeEvent.deserializeFromMessage SPIKE_BASE_SIZE msg spikeInfo ret = none := by
  have h1 := sizeT_event_total _ _ hfit
  have h2 := sizeT_spike_total _ _ _ _ hfitS
  refine ⟨?_, ?_, ?_, ?_⟩
  · unfold TTLEvent.deserializeFromMessage
    simp only [h1]
    rw [if_pos hlen]
  · unfold TextEvent.deserializeFromMessage
    simp only [h1]
    rw [if_pos hlen]
  · unfold BinaryEvent.deserializeFromMessage
    simp only [h1]
    rw [if_pos hlen]
  · unfold SpikeEvent.deserializeFromMessage
    simp only [h2]
    rw [if_pos hlenS]

/-- Witness of C17: a message of three bytes against the descriptors of scenario 1
(25 bytes expected) and `smallSingle` (30 bytes expected for `SPIKE_BASE_SIZE = 18`). -/
theorem C17_decoder_length_check_witness :
    TTLEvent.deserializeFromMessage ⟨4096, [1, 3, 100]⟩ scenarioTTL true = none ∧
    BinaryEvent.deserializeFromMessage ⟨4096, [1, 3, 100]⟩ scenarioTTL true = none ∧
    SpikeEvent.deserializeFromMessage 18 ⟨4096, [1, 3, 100]⟩ smallSingle true = none :=
  have h := C17_decoder_length_check 18 (fun _ _ => "") ⟨4096, [1, 3, 100]⟩ scenarioTTL
    smallSingle true (by decide) (by decide) (by decide) (by decide)
  ⟨h.1, h.2.2.1, h.2.2.2⟩

/-- C18, evaluated: four messages of the expected length whose byte 0 is the expected base
tag and whose byte 1 is the variant tag of the descriptor (the TTL message of scenario
1, a TEXT message for scenario 2, a FLOAT_ARRAY message for scenario 3, a spike
message), decoded with `ret` holding `true`. The TTL, text and spike decoders return
no event at every address of the message, the binary decoder at every address other
than 1: the tag tests compare the pointer into the message, not the byte, and reject
messages whose tags are right. -/
theorem C18_right_tags_are_rejected :
    (scenarioTTLMessage.bytes.getD 0 0 = EventType.PROCESSOR_EVENT.toNat ∧
      scenarioTTLMessage.bytes.getD 1 0 = scenarioTTL.getChannelType.toNat ∧
      scenarioTTLMessage.getRawDataSize
        = 24 + scenarioTTL.getDataSize + scenarioTTL.getTotalEventMetaDataSize ∧
      ∀ rawData, TTLEvent.deserializeFromMessage ⟨rawData, scenarioTTLMessage.bytes⟩
        scenarioTTL true = none) ∧
    (scenarioTextMessage.bytes.getD 0 0 = EventType.PROCESSOR_EVENT.toNat ∧
      scenarioTextMessage.bytes.getD 1 0 = scenarioText.getChannelType.toNat ∧
      scenarioTextMessage.getRawDataSize
        = 24 + scenarioText.getDataSize + scenarioText.getTotalEventMetaDataSize ∧
      ∀ decodeUTF8 rawData,
        TextEvent.deserializeFromMessage decodeUTF8 ⟨rawData, scenarioTextMessage.bytes⟩
          scenarioText true = none) ∧
    (scenarioFloatMessage.bytes.getD 0 0 = EventType.PROCESSOR_EVENT.toNat ∧
      scenarioFloatMessage.bytes.getD 1 0 = scenarioFloatArray.getChannelType.toNat ∧
      scenarioFloatMessage.getRawDataSize
        = 24 + scenarioFloatArray.getDataSize + scenarioFloatArray.getTotalEventMetaDataSize ∧
      ∀ rawData, rawData ≠ 1 →
        BinaryEvent.deserializeFromMessage ⟨rawData, scenarioFloatMessage.bytes⟩
          scenarioFloatArray true = none) ∧
    (smallSpikeMessage.bytes.getD 0 0 = EventType.SPIKE_EVENT.toNat ∧
      smallSpikeMessage.bytes.getD 1 0 = smallSingle.getChannelType.toNat ∧
      smallSpikeMessage.getRawDataSize
        = 18 + 4 * smallSingle.getNumChannels + smallSingle.getDataSize
          + smallSingle.getTotalEventMetaDataSize ∧
      ∀ rawData, SpikeEvent.deserializeFromMessage 18 ⟨rawData, smallSpikeMessage.bytes⟩
        smallSingle true = none) :=
  ⟨⟨by decide, by decide, by decide,
      fun _ => TTLEvent.deserializeFromMessage_ttl_eq_none _ _ _⟩,
    ⟨by decide, by decide, by decide,
      fun _ _ => TextEvent.deserializeFromMessage_text_eq_none _ _ _ _⟩,
    ⟨by decide, by decide, by decide,
      fun _ h => BinaryEvent.deserializeFromMessage_binary_eq_none _ _ _ h⟩,
    ⟨by decide, by decide, by decide,
      fun _ => SpikeEvent.deserializeFromMessage_spike_eq_none _ _ _ _⟩⟩

/-! ## C19, C20: the provenance fields of a raw message -/

/-- C19, evaluated: the descriptor `wideTTL` has source index 1026, source node id 300 and
sub-processor index 513; its TTL event serializes to a message that stores them as
16-bit fields (bytes 44 1, 1 2, 2 4). `EventBase::deserializeFromMessage` reads one
byte of each field: the lookup is queried with (2, 44, 1) instead of (1026, 300, 513),
the processor that publishes `wideTTL` finds no channel for that key, and the
dispatch goes on with a null descriptor. -/
theorem C19_lookup_key_is_one_byte_per_field :
    (TTLEvent.ctor wideTTL 5 3 [0x08]).serialize (List.replicate 25 0) 25
      = [1, 3, 44, 1, 1, 2, 2, 4, 5, 0, 0, 0, 0, 0, 0, 0, 3, 0, 0, 0, 0, 0, 0, 0, 8] ∧
    (wideTTL.getSourceIndex, wideTTL.getSourceNodeID, wideTTL.getSubProcessorIdx)
      = (1026, 300, 513) ∧
    (∀ rawData, EventBase.lookupKey
      ⟨rawData, (TTLEvent.ctor wideTTL 5 3 [0x08]).serialize (List.replicate 25 0) 25⟩
        = (2, 44, 1)) ∧
    wideProcessor.getEventChannel (wideProcessor.getEventChannelIndex 1026 300 513)
      = some wideTTL ∧
    wideProcessor.getEventChannel (wideProcessor.getEventChannelIndex 2 44 1) = none ∧
    (∀ SPIKE_BASE_SIZE decodeUTF8 rawData ret,
      EventBase.deserializeFromMessage SPIKE_BASE_SIZE decodeUTF8
        ⟨rawData, (TTLEvent.ctor wideTTL 5 3 [0x08]).serialize (List.replicate 25 0) 25⟩
        (some wideProcessor) ret = Decoded.nullDereference) := by
  have hser : (TTLEvent.ctor wideTTL 5 3 [0x08]).serialize (List.replicate 25 0) 25
      = [1, 3, 44, 1, 1, 2, 2, 4, 5, 0, 0, 0, 0, 0, 0, 0, 3, 0, 0, 0, 0, 0, 0, 0, 8] := by
    decide
  refine ⟨hser, by decide, ?_, by decide, by decide, ?_⟩
  · intro rawData
    rw [hser]
    rfl
  · intro S dec rawData ret
    rw [hser]
    rfl

/-- C20, evaluated: on the message of the TTL event of scenario 1 (source node id 100,
sub-processor index 1, source index 2) `getSourceID`, `getSubProcessorIdx` and
`getSourceIndex` return 3, 5 and 5: byte 0 (the base tag 1) plus 2, 4 and 4. On the
spike message (base tag 2) they return 4, 6 and 6. None reads the 16-bit fields at
offsets 2, 4 and 6. -/
theorem C20_raw_accessors_return_tag_plus_constant :
    scenarioTTLEvent.serialize (List.replicate 25 0) 25 = scenarioTTLMessage.bytes ∧
    (scenarioTTL.getSourceNodeID, scenarioTTL.getSubProcessorIdx, scenarioTTL.getSourceIndex)
      = (100, 1, 2) ∧
    (EventBase.getSourceID scenarioTTLMessage, EventBase.getSubProcessorIdx scenarioTTLMessage,
      EventBase.getSourceIndex scenarioTTLMessage) = (3, 5, 5) ∧
    smallSpike.serialize 18 (List.replicate 30 0) 30 = smallSpikeMessage.bytes ∧
    (EventBase.getSourceID smallSpikeMessage, EventBase.getSubProcessorIdx smallSpikeMessage,
      EventBase.getSourceIndex smallSpikeMessage) = (4, 6, 6) := by
  refine ⟨?_, ?_, ?_, ?_, ?_⟩ <;> decide



/-! ## Further facts: bits of a TTL word, missing descriptors, spike buffers -/

/-- Masking with a single bit is non-zero exactly when that bit is set. -/
theorem land_two_pow_ne_zero_iff (k y : Nat) : (2 ^ k &&& y ≠ 0) ↔ y.testBit k = true := by
  constructor
  · intro h
    obtain ⟨i, hi⟩ := Nat.ne_zero_implies_bit_true h
    rw [Nat.testBit_and, Nat.testBit_two_pow] at hi
    simp only [Bool.and_eq_true, decide_eq_true_eq] at hi
    rw [hi.1]
    exact hi.2
  · intro h hz
    have := congrArg (fun x => Nat.testBit x k) hz
    simp [Nat.testBit_and, Nat.testBit_two_pow, h] at this

/-- Sign extension of a byte does not change its eight low bits. -/
theorem testBit_charToInt (b k : Nat) (hk : k < 8) :
    (charToInt b).testBit k = b.testBit k := by
  have hmod : (b % 256).testBit k = b.testBit k := by
    have := Nat.testBit_mod_two_pow b 8 k
    simpa [hk] using this
  unfold charToInt
  split
  · exact hmod
  · have hlt : b % 256 < 2 ^ 8 := Nat.mod_lt _ (by decide)
    have h := Nat.testBit_mul_pow_two_add (2 ^ 24 - 1) hlt k
    rw [if_pos hk] at h
    have heq : b % 256 + (2 ^ 32 - 256) = 2 ^ 8 * (2 ^ 24 - 1) + b % 256 := by omega
    rw [heq, h, hmod]

/-- The function `getState` returns bit `channel mod 8` of byte `channel div 8` of the word. -/
theorem TTLEvent.getState_eq_testBit (e : TTLEvent) :
    e.getState = (e.m_data.getD (e.m_channel / 8) 0).testBit (e.m_channel % 8) := by
  have hk : e.m_channel % 8 < 8 := Nat.mod_lt _ (by decide)
  unfold TTLEvent.getState
  simp only
  rw [← testBit_charToInt _ _ hk]
  have h := land_two_pow_ne_zero_iff (e.m_channel % 8)
    (charToInt (e.m_data.getD (e.m_channel / 8) 0))
  rw [← Nat.one_shiftLeft] at h
  cases hb : (charToInt (e.m_data.getD (e.m_channel / 8) 0)).testBit (e.m_channel % 8) with
  | true => exact decide_eq_true (h.2 hb)
  | false =>
    apply decide_eq_false
    intro hne
    rw [h.1 hne] at hb
    cases hb

/-- With a processor whose lookup yields no descriptor, the dispatch of a processor event or
of a spike event goes through the null descriptor. -/
theorem EventBase.deserializeFromMessage_of_missing_descriptor (SPIKE_BASE_SIZE : Nat)
    (decodeUTF8 : List Nat → Nat → String) (msg : MidiMessage) (processor : GenericProcessor)
    (ret : Bool)
    (htag : msg.bytes.getD 0 0 = 1 ∨ msg.bytes.getD 0 0 = 2)
    (hevent : ∀ i, processor.getEventChannel i = none)
    (hspike : ∀ i, processor.getSpikeChannel i = none) :
    EventBase.deserializeFromMessage SPIKE_BASE_SIZE decodeUTF8 msg (some processor) ret
      = Decoded.nullDereference := by
  unfold EventBase.deserializeFromMessage
  simp only [EventType.toNat]
  rcases htag with h | h
  · rw [if_pos h]
    simp only [hevent, Event.deserializeFromMessage]
  · rw [if_neg (by rw [h]; decide), if_pos h]
    simp only [hspike]

/-- On a ready buffer the lane access returns the offset `lane + m_nSamps`. -/
theorem SpikeBuffer.subscript_of_ready (b : SpikeBuffer) (lane : Nat)
    (hready : b.m_ready = true) (hlane : lane < b.m_nChans) :
    b.subscript (lane : Int) = some (lane + b.m_nSamps) := by
  unfold SpikeBuffer.subscript
  simp [hready, hlane]

/-- A call of `createBasicSpike` that returns an event leaves the buffer not ready. -/
theorem SpikeEvent.createBasicSpike_some_not_ready (info : SpikeChannel) (timestamp : Nat)
    (thresholds : List Nat) (dataSource after : SpikeBuffer) (e : SpikeEvent)
    (h : SpikeEvent.createBasicSpike info timestamp thresholds dataSource = (some e, after)) :
    after.m_ready = false := by
  simp only [SpikeEvent.createBasicSpike, SpikeEvent.ctor] at h
  split_ifs at h <;> first | (cases h; done) | (cases h; rfl)

/-- On a buffer that is not ready `createBasicSpike` returns no event and leaves the buffer
as it is. -/
theorem SpikeEvent.createBasicSpike_of_not_ready (info : SpikeChannel) (timestamp : Nat)
    (thresholds : List Nat) (dataSource : SpikeBuffer) (h : dataSource.m_ready = false) :
    SpikeEvent.createBasicSpike info timestamp thresholds dataSource = (none, dataSource) := by
  simp [SpikeEvent.createBasicSpike, h]

/-- The three spike factories return no event on a buffer that is not ready, and leave it as
it is. -/
theorem SpikeEvent.create_of_not_ready (channelInfo : Option SpikeChannel) (timestamp : Nat)
    (thresholds : List Nat) (dataSource : SpikeBuffer) (metaData : List MetaDataValue)
    (h : dataSource.m_ready = false) :
    SpikeEvent.createSpikeEvent channelInfo timestamp thresholds dataSource
      = (none, dataSource) ∧
    SpikeEvent.createSpikeEventMeta channelInfo timestamp thresholds dataSource metaData
      = (none, dataSource) := by
  cases channelInfo with
  | none => exact ⟨rfl, rfl⟩
  | some info =>
    have hb := SpikeEvent.createBasicSpike_of_not_ready info timestamp thresholds dataSource h
    constructor
    · simp only [SpikeEvent.createSpikeEvent, hb]
      split_ifs <;> rfl
    · simp only [SpikeEvent.createSpikeEventMeta, hb]
      split_ifs <;> rfl

/-- A call of a spike factory that returns an event leaves the buffer not ready. -/
theorem SpikeEvent.create_some_not_ready (info : SpikeChannel) (timestamp : Nat)
    (thresholds : List Nat) (dataSource after : SpikeBuffer) (metaData : List MetaDataValue)
    (e : SpikeEvent)
    (h : SpikeEvent.createBasicSpike info timestamp thresholds dataSource = (some e, after) ∨
      SpikeEvent.createSpikeEvent (some info) timestamp thresholds dataSource
        = (some e, after) ∨
      SpikeEvent.createSpikeEventMeta (some info) timestamp thresholds dataSource metaData
        = (some e, after)) :
    after.m_ready = false := by
  rcases h with h | h | h
  · exact SpikeEvent.createBasicSpike_some_not_ready _ _ _ _ _ _ h
  · simp only [SpikeEvent.createSpikeEvent] at h
    split_ifs at h
    · cases h
    · exact SpikeEvent.createBasicSpike_some_not_ready _ _ _ _ _ _ h
  · simp only [SpikeEvent.createSpikeEventMeta] at h
    split_ifs at h
    · cases h
    · cases hb : SpikeEvent.createBasicSpike info timestamp thresholds dataSource with
      | mk ev buf =>
        rw [hb] at h
        cases ev with
        | none => cases h
        | some ev =>
          simp only [Prod.mk.injEq] at h
          rw [← h.2]
          exact SpikeEvent.createBasicSpike_some_not_ready _ _ _ _ _ _ hb

/-! ## C21: decoding without a descriptor -/

/-- C21, evaluated: a processor that publishes no channel answers every descriptor lookup
with a null pointer. For the TTL message of scenario 1 (base tag PROCESSOR_EVENT) and
for a spike message (base tag SPIKE_EVENT) `EventBase::deserializeFromMessage` does not
return: `Event::deserializeFromMessage` reads `channelInfo->getChannelType()`, and
`SpikeEvent::deserializeFromMessage` reads `channelInfo->getNumChannels()`, through the
null descriptor. Without a processor, and for a byte 0 that is neither base tag, it
returns no event. -/
theorem C21_missing_descriptor_is_dereferenced :
    (∀ SPIKE_BASE_SIZE decodeUTF8 rawData ret,
      EventBase.deserializeFromMessage SPIKE_BASE_SIZE decodeUTF8
        ⟨rawData, scenarioTTLMessage.bytes⟩ (some emptyProcessor) ret
        = Decoded.nullDereference) ∧
    (∀ SPIKE_BASE_SIZE decodeUTF8 rawData ret,
      EventBase.deserializeFromMessage SPIKE_BASE_SIZE decodeUTF8
        ⟨rawData, smallSpikeMessage.bytes⟩ (some emptyProcessor) ret
        = Decoded.nullDereference) ∧
    (∀ SPIKE_BASE_SIZE decodeUTF8 rawData ret,
      EventBase.deserializeFromMessage SPIKE_BASE_SIZE decodeUTF8
        ⟨rawData, scenarioTTLMessage.bytes⟩ none ret = Decoded.null) ∧
    (∀ SPIKE_BASE_SIZE decodeUTF8 rawData ret,
      EventBase.deserializeFromMessage SPIKE_BASE_SIZE decodeUTF8
        ⟨rawData, [7, 3, 100, 0, 1, 0, 2, 0]⟩ (some emptyProcessor) ret = Decoded.null) :=
  ⟨fun _ _ _ _ => EventBase.deserializeFromMessage_of_missing_descriptor _ _ _ _ _
      (Or.inl rfl) (fun _ => rfl) (fun _ => rfl),
    fun _ _ _ _ => EventBase.deserializeFromMessage_of_missing_descriptor _ _ _ _ _
      (Or.inr rfl) (fun _ => rfl) (fun _ => rfl),
    fun _ _ _ _ => rfl, fun _ _ _ _ => rfl⟩

/-! ## C22: the state of a TTL event -/

/-- An event returned by either `createTTLEvent` overload holds the channel of the call and
the first `getDataSize()` bytes of the source. -/
theorem TTLEvent.createTTLEvent_some_fields (info : EventChannel) (timestamp : Nat)
    (eventData : List Nat) (dataSize : Int) (metaData : List MetaDataValue) (channel : Nat)
    (e : TTLEvent)
    (h : TTLEvent.createTTLEvent (some info) timestamp eventData dataSize channel = some e ∨
      TTLEvent.createTTLEventMeta (some info) timestamp eventData dataSize metaData channel
        = some e) :
    e.m_channel = channel ∧ e.m_data = eventData.take info.getDataSize := by
  rcases h with h | h
  · simp only [TTLEvent.createTTLEvent] at h
    split_ifs at h
    cases h
    exact ⟨rfl, rfl⟩
  · simp only [TTLEvent.createTTLEventMeta] at h
    split_ifs at h
    cases h
    exact ⟨rfl, rfl⟩

/-- C22: for every TTL descriptor with `n` virtual channels (payload size `ceil(n / 8)`,
with or without event-metadata slots), every TTL word of that many bytes and every
channel `c < n`: byte `c div 8` lies inside the word; when the descriptor has no slot the
metadata-less `TTLEvent::createTTLEvent` returns an event, and for every metadata vector
that matches the descriptor's slots the metadata-carrying one does; and every event
returned by either overload holds the word and has `getState()` equal to bit `c mod 8` of
byte `c div 8`, whatever the byte value is (the sign extension of a byte with the top
bit set leaves its eight low bits). -/
theorem C22_getState_is_bit_of_word (info : EventChannel) (timestamp : Nat)
    (word : List Nat) (c : Nat)
    (htype : info.getChannelType = EventChannelTypes.TTL)
    (hn : info.getNumChannels < 2 ^ 32)
    (hsize : info.getDataSize = (info.getNumChannels + 7) / 8)
    (hword : word.length = info.getDataSize)
    (hc : c < info.getNumChannels) :
    c / 8 < word.length ∧
    (info.getEventMetaDataCount = 0 →
      ∃ e : TTLEvent,
        TTLEvent.createTTLEvent (some info) timestamp word (word.length : Int) c = some e) ∧
    (∀ metaData : List MetaDataValue,
      EventBase.compareMetaData info.m_eventMetaData metaData = true →
      ∃ e : TTLEvent,
        TTLEvent.createTTLEventMeta (some info) timestamp word (word.length : Int) metaData c
          = some e) ∧
    (∀ (metaData : List MetaDataValue) (e : TTLEvent),
      TTLEvent.createTTLEvent (some info) timestamp word (word.length : Int) c = some e ∨
      TTLEvent.createTTLEventMeta (some info) timestamp word (word.length : Int) metaData c
        = some e →
      e.m_data = word ∧ e.getState = (word.getD (c / 8) 0).testBit (c % 8)) := by
  have hconv : ¬ intToSizeT (word.length : Int) < info.getDataSize := by
    unfold intToSizeT
    omega
  refine ⟨by omega, ?_, ?_, ?_⟩
  · intro hmeta
    have hchk : Event.createChecks (some info) EventChannelTypes.TTL c = true := by
      simp [Event.createChecks, htype, hmeta, hc]
    exact ⟨TTLEvent.ctor info timestamp c word, by
      simp [TTLEvent.createTTLEvent, hchk, hconv]⟩
  · intro metaData hcmp
    have hchk : Event.createChecksMeta (some info) EventChannelTypes.TTL c metaData
        = true := by
      simp [Event.createChecksMeta, hcmp, htype, hc]
    exact ⟨{ TTLEvent.ctor info timestamp c word with m_metaDataValues := metaData }, by
      simp [TTLEvent.createTTLEventMeta, hchk, hconv, TTLEvent.ctor, Event.ctor]⟩
  · intro metaData e h
    obtain ⟨hch, hdata⟩ := TTLEvent.createTTLEvent_some_fields info timestamp word
      (word.length : Int) metaData c e h
    have hdata' : e.m_data = word := by
      rw [hdata]
      exact List.take_of_length_le (by omega)
    refine ⟨hdata', ?_⟩
    rw [TTLEvent.getState_eq_testBit, hdata', hch]

/-- Witness of C22: 16 channels, the word `[0x01, 0x80]`, channel 15 (the top bit of the
second byte), on a descriptor without event metadata and on one with an INT16 slot
(with a matching INT16 value). -/
theorem C22_getState_is_bit_of_word_witness :
    (∃ e : TTLEvent,
      TTLEvent.createTTLEvent (some ttl16) 5 [0x01, 0x80] 2 15 = some e ∧
      e.getState = Nat.testBit 0x80 7) ∧
    (∃ e : TTLEvent,
      TTLEvent.createTTLEventMeta (some ttl16Meta) 5 [0x01, 0x80] 2 [scenarioInt16Value] 15
        = some e ∧
      e.getState = Nat.testBit 0x80 7) :=
  have h1 := C22_getState_is_bit_of_word ttl16 5 [0x01, 0x80] 15
    rfl (by decide) rfl rfl (by decide)
  have h2 := C22_getState_is_bit_of_word ttl16Meta 5 [0x01, 0x80] 15
    rfl (by decide) rfl rfl (by decide)
  have ⟨e1, he1⟩ := h1.2.1 rfl
  have ⟨e2, he2⟩ := h2.2.2.1 [scenarioInt16Value] (by decide)
  ⟨⟨e1, he1, (h1.2.2.2 [] e1 (Or.inl he1)).2⟩,
    ⟨e2, he2, (h2.2.2.2 [scenarioInt16Value] e2 (Or.inr he2)).2⟩⟩

/-! ## C23 to C25, C27: spike buffers and spike samples -/

/-- C23, evaluated: on the ready buffer built from the tetrode descriptor of scenario 4
(4 lanes of 40 samples, 160 elements) `buf[0]`, `buf[1]`, `buf[2]`, `buf[3]` point to
elements 40, 41, 42, 43, not to elements 0, 40, 80, 120: the views of 40 samples
starting there overlap. On the ready buffer of a single electrode with 2 samples
(2 elements) `buf[0]` points to element 2, past the end of the block. The operator
adds `m_nSamps` to the lane index instead of multiplying by it. -/
theorem C23_lane_view_offset_is_a_sum :
    tetrodeBuffer.m_ready = true ∧ tetrodeBuffer.m_data.length = 4 * 40 ∧
    tetrodeBuffer.subscript 0 = some 40 ∧ tetrodeBuffer.subscript 1 = some 41 ∧
    tetrodeBuffer.subscript 2 = some 42 ∧ tetrodeBuffer.subscript 3 = some 43 ∧
    smallBuffer.m_ready = true ∧ smallBuffer.m_data.length = 1 * 2 ∧
    smallBuffer.subscript 0 = some 2 :=
  ⟨rfl, rfl, rfl, rfl, rfl, rfl, rfl, rfl, rfl⟩

/-- C24: after every call of `createBasicSpike` or `createSpikeEvent` (with or without
metadata) that returns an event, the buffer is not ready; `buf[lane]` then returns no
view for every lane, and every further `createBasicSpike` / `createSpikeEvent` call on
it, for every descriptor, timestamp, thresholds and metadata, returns no event and
leaves the buffer as it is (so it stays not ready). -/
theorem C24_spike_buffer_single_use (info : SpikeChannel) (timestamp : Nat) (thresholds : List Nat)
    (dataSource after : SpikeBuffer) (metaData : List MetaDataValue) (e : SpikeEvent)
    (hcall :
      SpikeEvent.createBasicSpike info timestamp thresholds dataSource = (some e, after) ∨
      SpikeEvent.createSpikeEvent (some info) timestamp thresholds dataSource
        = (some e, after) ∨
      SpikeEvent.createSpikeEventMeta (some info) timestamp thresholds dataSource metaData
        = (some e, after)) :
    after.m_ready = false ∧
    (∀ lane : Int, after.subscript lane = none) ∧
    (∀ (info2 : SpikeChannel) (timestamp2 : Nat) (thresholds2 : List Nat),
      SpikeEvent.createBasicSpike info2 timestamp2 thresholds2 after = (none, after)) ∧
    (∀ (channelInfo2 : Option SpikeChannel) (timestamp2 : Nat) (thresholds2 : List Nat),
      SpikeEvent.createSpikeEvent channelInfo2 timestamp2 thresholds2 after
        = (none, after)) ∧
    (∀ (channelInfo2 : Option SpikeChannel) (timestamp2 : Nat) (thresholds2 : List Nat)
      (metaData2 : List MetaDataValue),
      SpikeEvent.createSpikeEventMeta channelInfo2 timestamp2 thresholds2 after metaData2
        = (none, after)) := by
  have hready := SpikeEvent.create_some_not_ready info timestamp thresholds dataSource after
    metaData e hcall
  refine ⟨hready, ?_, ?_, ?_, ?_⟩
  · intro lane
    simp [SpikeBuffer.subscript, hready]
  · intro info2 ts2 thr2
    exact SpikeEvent.createBasicSpike_of_not_ready info2 ts2 thr2 after hready
  · intro ci ts2 thr2
    exact (SpikeEvent.create_of_not_ready ci ts2 thr2 after [] hready).1
  · intro ci ts2 thr2 md2
    exact (SpikeEvent.create_of_not_ready ci ts2 thr2 after md2 hready).2

/-- Witness of C24: the buffer of scenario 4 after the creation of the spike of scenario 4. -/
theorem C24_spike_buffer_single_use_witness :
    (SpikeEvent.createSpikeEvent (some scenarioTetrode) 1000 scenarioThresholds
      scenarioSpikeBuffer).2.m_ready = false ∧
    (SpikeEvent.createSpikeEvent (some scenarioTetrode) 1000 scenarioThresholds
      scenarioSpikeBuffer).2.subscript 2 = none ∧
    (SpikeEvent.createSpikeEvent (some scenarioTetrode) 2000 scenarioThresholds
      (SpikeEvent.createSpikeEvent (some scenarioTetrode) 1000 scenarioThresholds
        scenarioSpikeBuffer).2).1 = none :=
  have h := C24_spike_buffer_single_use scenarioTetrode 1000 scenarioThresholds scenarioSpikeBuffer
    (SpikeEvent.createSpikeEvent (some scenarioTetrode) 1000 scenarioThresholds
      scenarioSpikeBuffer).2 []
    (SpikeEvent.ctor scenarioTetrode 1000 scenarioThresholds scenarioSpikeBuffer.m_data).1
    (Or.inr (Or.inl rfl))
  ⟨h.1, h.2.1 2, congrArg Prod.fst (h.2.2.2.1 (some scenarioTetrode) 2000 scenarioThresholds)⟩

/-- C25: for every spike event whose sample count `numChannels * totalSamples` fits the
`unsigned int` in which the offset is computed, and every lane `c` in
`[0, numChannels)`, `SpikeEvent::getDataPointer(c)` points to element `c * totalSamples` of
the sample array, and the `totalSamples` elements from there lie inside the
`numChannels * totalSamples` elements of the array; for every `c < 0` and every
`c >= numChannels` it returns a null pointer. -/
theorem C25_getDataPointer_of_lane (e : SpikeEvent)
    (hfit : e.m_channelInfo.getNumChannels * e.m_channelInfo.getTotalSamples < 2 ^ 32) :
    (∀ lane : Nat, lane < e.m_channelInfo.getNumChannels →
      e.getDataPointerAt (lane : Int) = some (lane * e.m_channelInfo.getTotalSamples) ∧
      lane * e.m_channelInfo.getTotalSamples + e.m_channelInfo.getTotalSamples
        ≤ e.m_channelInfo.getNumChannels * e.m_channelInfo.getTotalSamples) ∧
    (∀ channel : Int, channel < 0 ∨ (e.m_channelInfo.getNumChannels : Int) ≤ channel →
      e.getDataPointerAt channel = none) := by
  constructor
  · intro lane hlane
    have hmul : (lane + 1) * e.m_channelInfo.getTotalSamples
        ≤ e.m_channelInfo.getNumChannels * e.m_channelInfo.getTotalSamples :=
      Nat.mul_le_mul_right _ hlane
    rw [Nat.succ_mul] at hmul
    refine ⟨?_, hmul⟩
    have hlt : lane * e.m_channelInfo.getTotalSamples < 2 ^ 32 := by omega
    have hin : ¬ ((lane : Int) < 0
        ∨ (lane : Int) ≥ (e.m_channelInfo.getNumChannels : Int)) := by
      omega
    simp only [SpikeEvent.getDataPointerAt, if_neg hin, Int.toNat_ofNat, Nat.mod_eq_of_lt hlt]
  · intro channel hout
    have hout' : channel < 0 ∨ channel ≥ (e.m_channelInfo.getNumChannels : Int) := by omega
    simp only [SpikeEvent.getDataPointerAt, if_pos hout']

/-- Witness of C25: the tetrode spike of scenario 4 (four lanes of 40 samples): lanes 1, 2
and 3 start at elements 40, 80 and 120, lane 2 ends inside the 160 elements, and the
channels 4 and -1 have no slice. -/
theorem C25_getDataPointer_of_lane_witness :
    scenarioSpike.getDataPointerAt 1 = some 40 ∧
    scenarioSpike.getDataPointerAt 2 = some 80 ∧
    scenarioSpike.getDataPointerAt 3 = some 120 ∧
    2 * 40 + 40 ≤ 4 * 40 ∧
    scenarioSpike.getDataPointerAt 4 = none ∧
    scenarioSpike.getDataPointerAt (-1) = none :=
  have h := C25_getDataPointer_of_lane scenarioSpike (by decide)
  ⟨(h.1 1 (by decide)).1, (h.1 2 (by decide)).1, (h.1 3 (by decide)).1,
    (h.1 2 (by decide)).2, h.2 4 (by decide), h.2 (-1) (by decide)⟩

/-! ## C26: the type tag of an event -/

/-- C26, evaluated: the descriptor of scenario 1 has the variant tag TTL = 3.
`createTextEvent` returns a text event bound to it whose serialization has byte 1 = 5
(TEXT); `createBinaryEvent<float>` returns a binary event bound to it whose
`getBinaryType()` is FLOAT_ARRAY = 18 and whose serialization has byte 1 = 18. -/
theorem C26_type_tag_differs_from_descriptor :
    scenarioTTL.getChannelType.toNat = 3 ∧
    TextEvent.createTextEvent (some scenarioTTL) 5 "a" 3
      = some (TextEvent.ctor scenarioTTL 5 3 "a") ∧
    (TextEvent.ctor scenarioTTL 5 3 "a").m_channelInfo = scenarioTTL ∧
    ((TextEvent.ctor scenarioTTL 5 3 "a").serialize (List.replicate 25 0) 25).getD 1 0 = 5 ∧
    BinaryEvent.createBinaryEvent ElementType.float (some scenarioTTL) 5 [0x08] 1 3
      = some (BinaryEvent.ctor scenarioTTL 5 3 [0x08] EventChannelTypes.FLOAT_ARRAY) ∧
    (BinaryEvent.ctor scenarioTTL 5 3 [0x08] EventChannelTypes.FLOAT_ARRAY).m_channelInfo
      = scenarioTTL ∧
    (BinaryEvent.ctor scenarioTTL 5 3 [0x08] EventChannelTypes.FLOAT_ARRAY).getBinaryType.toNat
      = 18 ∧
    ((BinaryEvent.ctor scenarioTTL 5 3 [0x08] EventChannelTypes.FLOAT_ARRAY).serialize
      (List.replicate 25 0) 25).getD 1 0 = 18 := by
  refine ⟨?_, ?_, ?_, ?_, ?_, ?_, ?_, ?_⟩ <;> decide

/-! ## C27: failing spike creations leave the buffer alone -/

/-- C27: `createBasicSpike` returns no event and leaves the buffer as it is whenever the
buffer's lane count or sample count differs from the descriptor's or the number of
thresholds differs from `numChannels`; the metadata-carrying `createSpikeEvent` returns
no event and leaves the buffer as it is whenever `compareMetaData` fails; and every call
of one of the three spike factories that returns no event leaves the buffer (ready
flag, dimensions, contents) as it was, so a buffer stops being ready only in a call
that returns an event. -/
theorem C27_failed_spike_creation_keeps_buffer (info : SpikeChannel) (timestamp : Nat)
    (thresholds : List Nat)
    (dataSource : SpikeBuffer) (metaData : List MetaDataValue) :
    (dataSource.m_nChans ≠ info.getNumChannels ∨ dataSource.m_nSamps ≠ info.getTotalSamples
        ∨ thresholds.length ≠ info.getNumChannels →
      SpikeEvent.createBasicSpike info timestamp thresholds dataSource
        = (none, dataSource)) ∧
    (EventBase.compareMetaData info.m_eventMetaData metaData = false →
      SpikeEvent.createSpikeEventMeta (some info) timestamp thresholds dataSource metaData
        = (none, dataSource)) ∧
    ((SpikeEvent.createBasicSpike info timestamp thresholds dataSource).1 = none →
      (SpikeEvent.createBasicSpike info timestamp thresholds dataSource).2 = dataSource) ∧
    (∀ channelInfo : Option SpikeChannel,
      (SpikeEvent.createSpikeEvent channelInfo timestamp thresholds dataSource).1 = none →
      (SpikeEvent.createSpikeEvent channelInfo timestamp thresholds dataSource).2
        = dataSource) ∧
    (∀ channelInfo : Option SpikeChannel,
      (SpikeEvent.createSpikeEventMeta channelInfo timestamp thresholds dataSource
        metaData).1 = none →
      (SpikeEvent.createSpikeEventMeta channelInfo timestamp thresholds dataSource
        metaData).2 = dataSource) := by
  have hbasic : ∀ i : SpikeChannel,
      (SpikeEvent.createBasicSpike i timestamp thresholds dataSource).1 = none →
      (SpikeEvent.createBasicSpike i timestamp thresholds dataSource).2 = dataSource := by
    intro i
    simp only [SpikeEvent.createBasicSpike, SpikeEvent.ctor]
    split_ifs <;> simp
  refine ⟨?_, ?_, hbasic info, ?_, ?_⟩
  · intro h
    simp only [SpikeEvent.createBasicSpike]
    split_ifs <;> first | rfl | omega
  · intro h
    simp [SpikeEvent.createSpikeEventMeta, h]
  · intro ci
    cases ci with
    | none => intro _; rfl
    | some i =>
      simp only [SpikeEvent.createSpikeEvent]
      split_ifs
      · intro _; rfl
      · exact hbasic i
  · intro ci
    cases ci with
    | none => intro _; rfl
    | some i =>
      simp only [SpikeEvent.createSpikeEventMeta]
      split_ifs
      · intro _; rfl
      · have hb := hbasic i
        cases hc : SpikeEvent.createBasicSpike i timestamp thresholds dataSource with
        | mk ev buf =>
          rw [hc] at hb
          cases ev with
          | none => intro _; exact hb rfl
          | some ev => intro h; cases h

/-- Witness of C27: the ready buffer of scenario 4 with three thresholds instead of four,
and with a metadata value for a descriptor without slots. -/
theorem C27_failed_spike_creation_keeps_buffer_witness :
    SpikeEvent.createBasicSpike scenarioTetrode 1000 [1, 2, 3] scenarioSpikeBuffer
      = (none, scenarioSpikeBuffer) ∧
    SpikeEvent.createSpikeEventMeta (some scenarioTetrode) 1000 scenarioThresholds
      scenarioSpikeBuffer [scenarioInt16Value] = (none, scenarioSpikeBuffer) :=
  have h1 := C27_failed_spike_creation_keeps_buffer scenarioTetrode 1000 [1, 2, 3]
    scenarioSpikeBuffer []
  have h2 := C27_failed_spike_creation_keeps_buffer scenarioTetrode 1000 scenarioThresholds
    scenarioSpikeBuffer [scenarioInt16Value]
  ⟨h1.1 (Or.inr (Or.inr (by decide))), h2.2.1 (by decide)⟩

end OpenEphys
